import Mathlib

/-! Contact-form server: validation, sanitisation and mail dispatch.

A shallow embedding of `src/server.js` (the `POST /api/contact` handler and the
helpers `isValidEmail` and `sanitizeInput`) together with the properties stated
for it.

JavaScript strings are sequences of UTF-16 code units, so a string is a list of
natural numbers; `.length` is `List.length` and `.substring(0, n)` is
`List.take n`.  The four regular expressions of the source are written as terms
of a small regular-expression syntax `Re` and run by a backtracking matcher that
follows the ECMAScript matcher (greedy quantifiers, continuation passing).
-/

namespace ContactServer

/-! ## Strings -/

/-- A JavaScript string: its UTF-16 code units. -/
abbrev JSString := List Nat

/-- UTF-16 encoding of one Unicode scalar value. -/
def utf16Char (c : Char) : List Nat :=
  if c.toNat < 65536 then [c.toNat]
  else [55296 + (c.toNat - 65536) / 1024, 56320 + (c.toNat - 65536) % 1024]

/-- The JavaScript string denoted by a source literal. -/
def utf16 (s : String) : JSString := (s.toList.map utf16Char).flatten

/-- Decimal digit, `[0-9]`. -/
def isDigit (c : Nat) : Bool := decide (48 ≤ c) && decide (c ≤ 57)

/-- Upper-case ASCII letter, `[A-Z]`. -/
def isUpper (c : Nat) : Bool := decide (65 ≤ c) && decide (c ≤ 90)

/-- Lower-case ASCII letter, `[a-z]`. -/
def isLower (c : Nat) : Bool := decide (97 ≤ c) && decide (c ≤ 122)

/-- The class `[a-zA-Z0-9]`. -/
def isAlnum (c : Nat) : Bool := isLower c || isUpper c || isDigit c

/-- The class `\w` of a non-unicode regular expression: `[A-Za-z0-9_]`.  Under the
`i` flag the class is unchanged, since the canonical form of a code unit above 127
is never an ASCII one. -/
def isWordChar (c : Nat) : Bool := isAlnum c || c == 95

/-- White space and line terminators of ECMAScript: the class `\s`, and the code
units removed by `String.prototype.trim`. -/
def isJsSpace (c : Nat) : Bool :=
  c == 9 || c == 10 || c == 11 || c == 12 || c == 13 || c == 32 || c == 160 ||
  c == 5760 || (decide (8192 ≤ c) && decide (c ≤ 8202)) || c == 8232 || c == 8233 ||
  c == 8239 || c == 8287 || c == 12288 || c == 65279

/-- ASCII lower-casing of one code unit. -/
def asciiLower (c : Nat) : Nat := if isUpper c then c + 32 else c

/-- Match of a pattern character under the `i` flag.  Every pattern character of
the source is ASCII, and the canonical form (upper-casing) of a code unit equals
that of an ASCII character only for the two ASCII cases of that character. -/
def eqIgnoreCase (a c : Nat) : Bool := asciiLower a == asciiLower c

/-! ## Regular expressions -/

/-- The regular-expression syntax used by the source.  `rep r max` is the greedy
quantifier `r{0,max}` (`none` for no upper bound), `notAhead r` is `(?!r)`. -/
inductive Re where
  | chr (p : Nat → Bool)
  | seq (a b : Re)
  | rep (r : Re) (max : Option Nat)
  | notAhead (r : Re)
  | wordBoundary
  | bol
  | eol

/-- A continuation of the matcher: it receives the code unit before the current
position (if any) and the rest of the input, and returns the rest of the input at
the end of the whole match. -/
abbrev Cont := Option Nat → JSString → Option JSString

/-- The final continuation: the match ends here. -/
def accept : Cont := fun _ s => some s

/-- Whether the position is next to a word character on the given side. -/
def isWordAt : Option Nat → Bool
  | none => false
  | some c => isWordChar c

/-- The ECMAScript RepeatMatcher for a greedy quantifier with minimum 0: try one
more iteration of `step` (an iteration that consumes nothing is rejected), and fall
back to the continuation.  `fuel` is at least the length of the input, and every
iteration shortens the input, so the loop never stops for lack of fuel
(`repLoop_fuel_irrelevant`). -/
def repLoop (step : Option Nat → JSString → Cont → Option JSString) :
    Nat → Option Nat → Option Nat → JSString → Cont → Option JSString
  | 0, _, prev, s, k => k prev s
  | fuel + 1, max, prev, s, k =>
    if max = some 0 then k prev s
    else
      match step prev s (fun prev1 s1 =>
          if s1.length < s.length then repLoop step fuel (max.map (· - 1)) prev1 s1 k
          else none) with
      | some r => some r
      | none => k prev s

/-- The backtracking matcher: `r.m prev s k` matches `r` at the start of `s`,
where `prev` is the code unit before `s`, and continues with `k`. -/
def Re.m : Re → Option Nat → JSString → Cont → Option JSString
  | .chr p, _, s, k =>
    match s with
    | c :: t => if p c then k (some c) t else none
    | [] => none
  | .seq a b, prev, s, k => a.m prev s (fun prev1 s1 => b.m prev1 s1 k)
  | .rep r max, prev, s, k => repLoop r.m s.length max prev s k
  | .notAhead r, prev, s, k =>
    match r.m prev s accept with
    | some _ => none
    | none => k prev s
  | .wordBoundary, prev, s, k =>
    if isWordAt prev != isWordAt s.head? then k prev s else none
  | .bol, prev, s, k => if prev.isNone then k prev s else none
  | .eol, prev, s, k => if s.isEmpty then k prev s else none

/-- Length of the match of `r` starting at the head of `s`, if there is one. -/
def Re.matchAt (r : Re) (prev : Option Nat) (s : JSString) : Option Nat :=
  (r.m prev s accept).map (fun rest => s.length - rest.length)

/-- The scan of `String.prototype.replace(/r/g, '')`: `skip` code units of the
current match remain to be dropped; otherwise a match is tried at the current
position, and the code unit is kept when there is none (or an empty one). -/
def replaceGo (r : Re) : Option Nat → Nat → JSString → JSString
  | _, _, [] => []
  | _, skip + 1, c :: t => replaceGo r (some c) skip t
  | prev, 0, c :: t =>
    match r.matchAt prev (c :: t) with
    | some (n + 1) => replaceGo r (some c) n t
    | _ => c :: replaceGo r (some c) 0 t

/-- The JavaScript `s.replace(/r/g, '')`. -/
def replaceAll (r : Re) (s : JSString) : JSString := replaceGo r none 0 s

/-- The scan of `RegExp.prototype.test` without the `g` flag: a match is tried at
every start position, from the left. -/
def testGo (r : Re) : Option Nat → JSString → Bool
  | prev, [] => (r.m prev [] accept).isSome
  | prev, c :: t => (r.m prev (c :: t) accept).isSome || testGo r (some c) t

/-- The JavaScript `/r/.test(s)` on a string. -/
def Re.test (r : Re) (s : JSString) : Bool := testGo r none s

/-- A literal under the `i` flag, followed by `k`. -/
def Re.litI : JSString → Re → Re
  | [], k => k
  | c :: t, k => .seq (.chr (eqIgnoreCase c)) (Re.litI t k)

/-- The quantifier `r*`. -/
def Re.star (r : Re) : Re := .rep r none

/-- The quantifier `r+`. -/
def Re.plus (r : Re) : Re := .seq r (.rep r none)

/-- The quantifier `r?`. -/
def Re.opt (r : Re) : Re := .rep r (some 1)

/-- The empty pattern. -/
def Re.eps : Re := .rep (.chr (fun _ => false)) (some 0)

/-! ## The helpers of `server.js` -/

/-- The pattern `/<script\b[^<]*(?:(?!<\/script>)<[^<]*)*<\/script>/gi` of
`sanitizeInput`. -/
def reScript : Re :=
  Re.litI (utf16 "<script") <|
  .seq .wordBoundary <|
  .seq (Re.star (.chr (fun c => c != 60))) <|
  .seq (Re.star
        (.seq (.notAhead (Re.litI (utf16 "</script>") Re.eps)) <|
         .seq (.chr (fun c => c == 60)) (Re.star (.chr (fun c => c != 60))))) <|
  Re.litI (utf16 "</script>") Re.eps

/-- The pattern `/[<>]/g` of `sanitizeInput`. -/
def reAngle : Re := .chr (fun c => c == 60 || c == 62)

/-- The pattern `/javascript:/gi` of `sanitizeInput`. -/
def reJavascript : Re := Re.litI (utf16 "javascript:") Re.eps

/-- The pattern `/on\w+\s*=/gi` of `sanitizeInput`. -/
def reOnHandler : Re :=
  Re.litI (utf16 "on") <|
  .seq (Re.plus (.chr isWordChar)) <|
  .seq (Re.star (.chr isJsSpace)) (.chr (fun c => c == 61))

/-- The JavaScript `String.prototype.trim`. -/
def trim (s : JSString) : JSString :=
  ((s.dropWhile isJsSpace).reverse.dropWhile isJsSpace).reverse

/-- The body of `sanitizeInput` on a string argument. -/
def sanitizeString (s : JSString) : JSString :=
  (trim (replaceAll reOnHandler (replaceAll reJavascript
    (replaceAll reAngle (replaceAll reScript s))))).take 2000

/-! ## Values of a request body -/

/-- A value found in `req.body` after `express.json()`: a JSON value, or
`undefined` for a property that is absent.  Numbers are the integral ones; a
fractional number takes the same branches everywhere in the handler (it is truthy,
it is not a string, and its text has no `@`). -/
inductive JsVal where
  | undefined
  | null
  | bool (b : Bool)
  | num (n : Int)
  | str (s : JSString)
  | arr (xs : List JsVal)
  | obj (fields : List (JSString × JsVal))

/-- An error object as seen by the `catch` block: its `code` property (possibly
`undefined`) and its `message`. -/
structure JsError where
  code : JsVal
  message : JSString

/-- The `TypeError` raised when an object cannot be converted to a primitive. -/
def typeError : JsError :=
  ⟨.undefined, utf16 "Cannot convert object to primitive value"⟩

/-- JavaScript truthiness, as tested by `!x`, `x ? a : b` and `x || y`. -/
def JsVal.truthy : JsVal → Bool
  | .undefined => false
  | .null => false
  | .bool b => b
  | .num n => n != 0
  | .str s => !s.isEmpty
  | .arr _ => true
  | .obj _ => true

/-- Number-to-string conversion of an integral number of magnitude below `10^21`:
its decimal digits.  (From `10^21` on JavaScript prints the exponent form; neither
form contains `@`, so no branch of the handler depends on the difference.) -/
def numToString (n : Int) : JSString :=
  if n < 0 then 45 :: (Nat.toDigits 10 n.natAbs).map Char.toNat
  else (Nat.toDigits 10 n.natAbs).map Char.toNat

/-- Whether an object has an own property of the given name. -/
def hasOwn (fields : List (JSString × JsVal)) (key : JSString) : Bool :=
  fields.any (fun kv => kv.1 == key)

/-- Whether the value is `null` or `undefined`. -/
def JsVal.isNullish : JsVal → Bool
  | .undefined => true
  | .null => true
  | _ => false

mutual
/-- The abstract operation `ToString`.  An array is joined with commas
(`Array.prototype.join`); a plain object gives `[object Object]`, unless an own
property `toString` shadows `Object.prototype.toString`: a JSON value is never
callable, `valueOf` does not yield a primitive, and the conversion throws. -/
def JsVal.toStr : JsVal → Except JsError JSString
  | .undefined => .ok (utf16 "undefined")
  | .null => .ok (utf16 "null")
  | .bool b => .ok (if b then utf16 "true" else utf16 "false")
  | .num n => .ok (numToString n)
  | .str s => .ok s
  | .arr xs => JsVal.join xs
  | .obj fields =>
    if hasOwn fields (utf16 "toString") then .error typeError
    else .ok (utf16 "[object Object]")
/-- The elements of an array joined with `,`; `null` and `undefined` elements
give the empty string. -/
def JsVal.join : List JsVal → Except JsError JSString
  | [] => .ok []
  | x :: t =>
    match (if x.isNullish then .ok [] else JsVal.toStr x) with
    | .error e => .error e
    | .ok a =>
      match JsVal.join t with
      | .error e => .error e
      | .ok b => .ok (if t.isEmpty then a else a ++ 44 :: b)
end

/-- The class `[a-zA-Z0-9.!#$%&'*+/=?^_{|}~-]` of the local part, with the
backquote (code 96). -/
def isLocalChar (c : Nat) : Bool :=
  isAlnum c ||
  [46, 33, 35, 36, 37, 38, 39, 42, 43, 47, 61, 63, 94, 95, 96, 123, 124, 125, 126, 45].contains c

/-- The class `[a-zA-Z0-9-]`. -/
def isLabelChar (c : Nat) : Bool := isAlnum c || c == 45

/-- The pattern `[a-zA-Z0-9](?:[a-zA-Z0-9-]{0,61}[a-zA-Z0-9])?` of one domain
label. -/
def reLabel : Re :=
  .seq (.chr isAlnum) (Re.opt (.seq (.rep (.chr isLabelChar) (some 61)) (.chr isAlnum)))

/-- The pattern `emailRegex` of `isValidEmail`:
`^[local]+@label(?:\.label)*$`. -/
def emailRegex : Re :=
  .seq .bol <|
  .seq (Re.plus (.chr isLocalChar)) <|
  .seq (.chr (fun c => c == 64)) <|
  .seq reLabel <|
  .seq (Re.star (.seq (.chr (fun c => c == 46)) reLabel)) .eol

/-- The call `emailRegex.test(email)`: the argument is converted to a string
first, which may throw. -/
def emailRegexTest (email : JsVal) : Except JsError Bool :=
  match email.toStr with
  | .error e => .error e
  | .ok s => .ok (emailRegex.test s)

/-- The comparison `email.length <= 254`.  A string has its number of code units
and an array its number of elements; a number or a boolean has no `length`, and
`undefined <= 254` is false.  The property read of an object is not modelled: it
is never evaluated, since `test` is not true on an object. -/
def lengthAtMost (v : JsVal) (n : Nat) : Bool :=
  match v with
  | .str s => decide (s.length ≤ n)
  | .arr xs => decide (xs.length ≤ n)
  | _ => false

/-- The function `isValidEmail`: `emailRegex.test(email) && email.length <= 254`. -/
def isValidEmail (email : JsVal) : Except JsError Bool :=
  match emailRegexTest email with
  | .error e => .error e
  | .ok matched => .ok (matched && lengthAtMost email 254)

/-- The function `sanitizeInput`. -/
def sanitizeInput (input : JsVal) : JSString :=
  match input with
  | .str s => sanitizeString s
  | _ => []

/-! ## The contact handler -/

/-- The properties read from `req.body`. -/
structure Body where
  name : JsVal
  email : JsVal
  subject : JsVal
  message : JsVal
  phone : JsVal := .undefined
  company : JsVal := .undefined
  budget : JsVal := .undefined
  timeline : JsVal := .undefined

/-- The environment variables read by the handler (`undefined` when unset). -/
structure Env where
  EMAIL_USER : Option JSString
  WORK_EMAIL : Option JSString

/-- What the handler does not decide itself: whether each of the two `sendMail`
promises rejects, and with what error (and which one rejects first when both do),
the two renderings of the current date, and the lower-casing of a string that is
not pure ASCII (the Unicode tables of `toLowerCase`). -/
structure World where
  sendNotification : Option JsError := none
  sendAutoReply : Option JsError := none
  autoReplyRejectsFirst : Bool := false
  dateLong : JSString := []
  dateShort : JSString := []
  lowerNonAscii : JSString → JSString := id

/-- The object `sanitizedData`. -/
structure SanitizedData where
  name : JSString
  email : JSString
  subject : JSString
  message : JSString
  phone : JSString
  company : JSString
  budget : JSString
  timeline : JSString
deriving DecidableEq

/-- The fields of `sanitizedData`. -/
inductive Field where
  | name | email | subject | message | phone | company | budget | timeline
deriving DecidableEq, Repr

/-- The value of a field of `sanitizedData`. -/
def SanitizedData.get (d : SanitizedData) : Field → JSString
  | .name => d.name
  | .email => d.email
  | .subject => d.subject
  | .message => d.message
  | .phone => d.phone
  | .company => d.company
  | .budget => d.budget
  | .timeline => d.timeline

/-- A piece of an evaluated template literal: literal text, the interpolation
`${sanitizedData.f}`, or one of the two interpolated dates. -/
inductive Part where
  | lit (text : String)
  | val (f : Field)
  | dateLong
  | dateShort
deriving DecidableEq

/-- The string a piece stands for. -/
def Part.render (d : SanitizedData) (w : World) : Part → JSString
  | .lit text => utf16 text
  | .val f => d.get f
  | .dateLong => w.dateLong
  | .dateShort => w.dateShort

/-- The string of an evaluated template literal. -/
def render (d : SanitizedData) (w : World) (parts : List Part) : JSString :=
  (parts.map (Part.render d w)).flatten

/-- The fields whose value is interpolated into an evaluated template. -/
def fieldsOf (parts : List Part) : List Field :=
  parts.filterMap (fun p => match p with | .val f => some f | _ => none)

/-- The `html` template of `mailOptions` (the notification). -/
def notificationHtml (d : SanitizedData) : List Part :=
  [.lit "\n",
   .lit "        <div style=\"font-family: 'Segoe UI', Tahoma, Geneva, Verdana, sans-serif; max-width: 650px; margin: 0 auto; background: linear-gradient(135deg, #667eea 0%, #764ba2 100%); padding: 20px; border-radius: 20px;\">\n",
   .lit "          <div style=\"background: white; padding: 40px; border-radius: 15px; box-shadow: 0 20px 60px rgba(0,0,0,0.1);\">\n",
   .lit "            \n",
   .lit "            <!-- Header -->\n",
   .lit "            <div style=\"text-align: center; margin-bottom: 40px;\">\n",
   .lit "              <h1 style=\"color: #333; margin: 0; font-size: 32px; font-weight: 700; background: linear-gradient(135deg, #667eea, #764ba2); -webkit-background-clip: text; -webkit-text-fill-color: transparent;\">\n",
   .lit "                🎯 NEW PROJECT INQUIRY\n",
   .lit "              </h1>\n",
   .lit "              <div style=\"width: 80px; height: 4px; background: linear-gradient(45deg, #667eea, #764ba2); margin: 20px auto; border-radius: 2px;\"></div>\n",
   .lit "            </div>\n",
   .lit "\n",
   .lit "            <!-- Client Information -->\n",
   .lit "            <div style=\"background: #f8f9ff; padding: 25px; border-radius: 12px; margin-bottom: 30px; border-left: 5px solid #667eea;\">\n",
   .lit "              <h3 style=\"color: #333; margin: 0 0 20px 0; font-size: 20px; display: flex; align-items: center;\">\n",
   .lit "                <span style=\"margin-right: 10px;\">👤</span> Client Information\n",
   .lit "              </h3>\n",
   .lit "              \n",
   .lit "              <div style=\"display: grid; grid-template-columns: 1fr 1fr; gap: 15px; margin-bottom: 15px;\">\n",
   .lit "                <div style=\"background: white; padding: 15px; border-radius: 8px; box-shadow: 0 2px 10px rgba(0,0,0,0.05);\">\n",
   .lit "                  <strong style=\"color: #667eea; font-size: 12px; text-transform: uppercase; letter-spacing: 1px;\">Name</strong>\n",
   .lit "                  <p style=\"margin: 5px 0 0 0; color: #333; font-size: 16px; font-weight: 600;\">",
   .val .name,
   .lit "</p>\n",
   .lit "                </div>\n",
   .lit "                <div style=\"background: white; padding: 15px; border-radius: 8px; box-shadow: 0 2px 10px rgba(0,0,0,0.05);\">\n",
   .lit "                  <strong style=\"color: #667eea; font-size: 12px; text-transform: uppercase; letter-spacing: 1px;\">Email</strong>\n",
   .lit "                  <p style=\"margin: 5px 0 0 0; color: #333; font-size: 16px; font-weight: 600;\">\n",
   .lit "                    <a href=\"mailto:",
   .val .email,
   .lit "\" style=\"color: #667eea; text-decoration: none;\">",
   .val .email,
   .lit "</a>\n",
   .lit "                  </p>\n",
   .lit "                </div>\n",
   .lit "              </div>\n",
   .lit "\n",
   .lit "              "] ++
  (if !d.phone.isEmpty then
      [.lit "\n",
       .lit "                <div style=\"display: grid; grid-template-columns: 1fr 1fr; gap: 15px; margin-bottom: 15px;\">\n",
       .lit "                  <div style=\"background: white; padding: 15px; border-radius: 8px; box-shadow: 0 2px 10px rgba(0,0,0,0.05);\">\n",
       .lit "                    <strong style=\"color: #667eea; font-size: 12px; text-transform: uppercase; letter-spacing: 1px;\">Phone</strong>\n",
       .lit "                    <p style=\"margin: 5px 0 0 0; color: #333; font-size: 16px; font-weight: 600;\">",
       .val .phone,
       .lit "</p>\n",
       .lit "                  </div>\n",
       .lit "                  "] ++
      (if !d.company.isEmpty then
          [.lit "\n",
           .lit "                    <div style=\"background: white; padding: 15px; border-radius: 8px; box-shadow: 0 2px 10px rgba(0,0,0,0.05);\">\n",
           .lit "                      <strong style=\"color: #667eea; font-size: 12px; text-transform: uppercase; letter-spacing: 1px;\">Company</strong>\n",
           .lit "                      <p style=\"margin: 5px 0 0 0; color: #333; font-size: 16px; font-weight: 600;\">",
           .val .company,
           .lit "</p>\n",
           .lit "                    </div>\n",
           .lit "                  "]
        else [.lit "<div></div>"]) ++
      [.lit "\n",
       .lit "                </div>\n",
       .lit "              "]
    else []) ++
  [.lit "\n",
   .lit "\n",
   .lit "              <div style=\"background: white; padding: 15px; border-radius: 8px; box-shadow: 0 2px 10px rgba(0,0,0,0.05);\">\n",
   .lit "                <strong style=\"color: #667eea; font-size: 12px; text-transform: uppercase; letter-spacing: 1px;\">Subject</strong>\n",
   .lit "                <p style=\"margin: 5px 0 0 0; color: #333; font-size: 16px; font-weight: 600;\">",
   .val .subject,
   .lit "</p>\n",
   .lit "              </div>\n",
   .lit "            </div>\n",
   .lit "\n",
   .lit "            <!-- Project Details -->\n",
   .lit "            "] ++
  (if (!d.budget.isEmpty || !d.timeline.isEmpty) then
      [.lit "\n",
       .lit "              <div style=\"background: #fff8f0; padding: 25px; border-radius: 12px; margin-bottom: 30px; border-left: 5px solid #ff9500;\">\n",
       .lit "                <h3 style=\"color: #333; margin: 0 0 20px 0; font-size: 20px; display: flex; align-items: center;\">\n",
       .lit "                  <span style=\"margin-right: 10px;\">💼</span> Project Details\n",
       .lit "                </h3>\n",
       .lit "                <div style=\"display: grid; grid-template-columns: 1fr 1fr; gap: 15px;\">\n",
       .lit "                  "] ++
      (if !d.budget.isEmpty then
          [.lit "\n",
           .lit "                    <div style=\"background: white; padding: 15px; border-radius: 8px; box-shadow: 0 2px 10px rgba(0,0,0,0.05);\">\n",
           .lit "                      <strong style=\"color: #ff9500; font-size: 12px; text-transform: uppercase; letter-spacing: 1px;\">Budget</strong>\n",
           .lit "                      <p style=\"margin: 5px 0 0 0; color: #333; font-size: 16px; font-weight: 600;\">",
           .val .budget,
           .lit "</p>\n",
           .lit "                    </div>\n",
           .lit "                  "]
        else []) ++
      [.lit "\n",
       .lit "                  "] ++
      (if !d.timeline.isEmpty then
          [.lit "\n",
           .lit "                    <div style=\"background: white; padding: 15px; border-radius: 8px; box-shadow: 0 2px 10px rgba(0,0,0,0.05);\">\n",
           .lit "                      <strong style=\"color: #ff9500; font-size: 12px; text-transform: uppercase; letter-spacing: 1px;\">Timeline</strong>\n",
           .lit "                      <p style=\"margin: 5px 0 0 0; color: #333; font-size: 16px; font-weight: 600;\">",
           .val .timeline,
           .lit "</p>\n",
           .lit "                    </div>\n",
           .lit "                  "]
        else []) ++
      [.lit "\n",
       .lit "                </div>\n",
       .lit "              </div>\n",
       .lit "            "]
    else []) ++
  [.lit "\n",
   .lit "\n",
   .lit "            <!-- Message -->\n",
   .lit "            <div style=\"background: #f0f8ff; padding: 25px; border-radius: 12px; margin-bottom: 30px; border-left: 5px solid #4CAF50;\">\n",
   .lit "              <h3 style=\"color: #333; margin: 0 0 20px 0; font-size: 20px; display: flex; align-items: center;\">\n",
   .lit "                <span style=\"margin-right: 10px;\">💬</span> Message\n",
   .lit "              </h3>\n",
   .lit "              <div style=\"background: white; padding: 20px; border-radius: 10px; box-shadow: 0 2px 10px rgba(0,0,0,0.05);\">\n",
   .lit "                <p style=\"color: #555; line-height: 1.8; margin: 0; font-size: 16px; white-space: pre-wrap;\">",
   .val .message,
   .lit "</p>\n",
   .lit "              </div>\n",
   .lit "            </div>\n",
   .lit "\n",
   .lit "            <!-- Quick Actions -->\n",
   .lit "            <div style=\"text-align: center; margin-top: 40px; padding-top: 30px; border-top: 2px solid #f0f0f0;\">\n",
   .lit "              <p style=\"color: #667eea; font-size: 16px; font-weight: 600; margin-bottom: 15px;\">\n",
   .lit "                📧 Reply to: ",
   .val .email,
   .lit "\n",
   .lit "              </p>\n",
   .lit "              "] ++
  (if !d.phone.isEmpty then
      [.lit "\n",
       .lit "                <p style=\"color: #4CAF50; font-size: 16px; font-weight: 600; margin-bottom: 15px;\">\n",
       .lit "                  📞 Call: ",
       .val .phone,
       .lit "\n",
       .lit "                </p>\n",
       .lit "              "]
    else []) ++
  [.lit "\n",
   .lit "            </div>\n",
   .lit "\n",
   .lit "            <!-- Footer -->\n",
   .lit "            <div style=\"text-align: center; margin-top: 40px; padding-top: 30px; border-top: 1px solid #e1e5e9;\">\n",
   .lit "              <p style=\"color: #888; font-size: 14px; margin: 0;\">\n",
   .lit "                🚀 Portfolio Contact Form • ",
   .dateLong,
   .lit " IST\n",
   .lit "              </p>\n",
   .lit "            </div>\n",
   .lit "          </div>\n",
   .lit "        </div>\n",
   .lit "      "]

/-- The `text` template of `mailOptions` (the notification). -/
def notificationText (d : SanitizedData) : List Part :=
  [.lit "\n",
   .lit "NEW PROJECT INQUIRY - ",
   .val .subject,
   .lit "\n",
   .lit "\n",
   .lit "CLIENT INFORMATION:\n",
   .lit "Name: ",
   .val .name,
   .lit "\n",
   .lit "Email: ",
   .val .email,
   .lit "\n"] ++
  (if !d.phone.isEmpty then
      [.lit "Phone: ",
       .val .phone]
    else []) ++
  [.lit "\n"] ++
  (if !d.company.isEmpty then
      [.lit "Company: ",
       .val .company]
    else []) ++
  [.lit "\n",
   .lit "\n",
   .lit "PROJECT DETAILS:\n"] ++
  (if !d.budget.isEmpty then
      [.lit "Budget: ",
       .val .budget]
    else []) ++
  [.lit "\n"] ++
  (if !d.timeline.isEmpty then
      [.lit "Timeline: ",
       .val .timeline]
    else []) ++
  [.lit "\n",
   .lit "\n",
   .lit "MESSAGE:\n",
   .val .message,
   .lit "\n",
   .lit "\n",
   .lit "---\n",
   .lit "Received: ",
   .dateShort,
   .lit " IST\n",
   .lit "      "]

/-- The `html` template of `autoReplyOptions`. -/
def autoReplyHtml : List Part :=
  [.lit "\n",
   .lit "        <div style=\"font-family: 'Segoe UI', Tahoma, Geneva, Verdana, sans-serif; max-width: 650px; margin: 0 auto; background: linear-gradient(135deg, #667eea 0%, #764ba2 100%); padding: 20px; border-radius: 20px;\">\n",
   .lit "          <div style=\"background: white; padding: 40px; border-radius: 15px; box-shadow: 0 20px 60px rgba(0,0,0,0.1);\">\n",
   .lit "            \n",
   .lit "            <div style=\"text-align: center; margin-bottom: 40px;\">\n",
   .lit "              <h1 style=\"color: #333; margin: 0; font-size: 28px; font-weight: 700; background: linear-gradient(135deg, #667eea, #764ba2); -webkit-background-clip: text; -webkit-text-fill-color: transparent;\">\n",
   .lit "                🚀 Thanks for reaching out!\n",
   .lit "              </h1>\n",
   .lit "              <div style=\"width: 80px; height: 4px; background: linear-gradient(45deg, #667eea, #764ba2); margin: 20px auto; border-radius: 2px;\"></div>\n",
   .lit "            </div>\n",
   .lit "\n",
   .lit "            <div style=\"color: #555; line-height: 1.8; font-size: 16px;\">\n",
   .lit "              <p style=\"font-size: 18px;\">Hi <strong style=\"color: #333; font-size: 20px;\">",
   .val .name,
   .lit "</strong>,</p>\n",
   .lit "              \n",
   .lit "              <p>Thanks for your interest in working together! I've received your message about \"<strong style=\"color: #667eea;\">",
   .val .subject,
   .lit "</strong>\" and I'm excited to learn more about your project.</p>\n",
   .lit "              \n",
   .lit "              <div style=\"background: #f8f9ff; padding: 25px; border-radius: 12px; margin: 25px 0; border-left: 5px solid #667eea;\">\n",
   .lit "                <h3 style=\"color: #333; margin: 0 0 15px 0; font-size: 18px;\">🎯 What happens next?</h3>\n",
   .lit "                <ul style=\"padding-left: 0; list-style: none;\">\n",
   .lit "                  <li style=\"margin: 12px 0; padding-left: 25px; position: relative;\">\n",
   .lit "                    <span style=\"position: absolute; left: 0; color: #667eea; font-weight: bold;\">✓</span>\n",
   .lit "                    I'll review your project details carefully\n",
   .lit "                  </li>\n",
   .lit "                  <li style=\"margin: 12px 0; padding-left: 25px; position: relative;\">\n",
   .lit "                    <span style=\"position: absolute; left: 0; color: #667eea; font-weight: bold;\">✓</span>\n",
   .lit "                    You'll hear back from me within 24 hours\n",
   .lit "                  </li>\n",
   .lit "                  <li style=\"margin: 12px 0; padding-left: 25px; position: relative;\">\n",
   .lit "                    <span style=\"position: absolute; left: 0; color: #667eea; font-weight: bold;\">✓</span>\n",
   .lit "                    We can schedule a call to discuss your vision in detail\n",
   .lit "                  </li>\n",
   .lit "                </ul>\n",
   .lit "              </div>\n",
   .lit "\n",
   .lit "              <div style=\"background: #fff8f0; padding: 20px; border-radius: 10px; margin: 25px 0; border-left: 4px solid #ff9500;\">\n",
   .lit "                <p style=\"margin: 0; color: #555; font-style: italic;\"><strong style=\"color: #333;\">Your message:</strong></p>\n",
   .lit "                <p style=\"margin: 15px 0 0 0; color: #666; background: white; padding: 15px; border-radius: 8px; border-left: 3px solid #ff9500;\">\"",
   .val .message,
   .lit "\"</p>\n",
   .lit "              </div>\n",
   .lit "\n",
   .lit "              <p>In the meantime, feel free to:</p>\n",
   .lit "              \n",
   .lit "              <div style=\"display: grid; grid-template-columns: 1fr 1fr; gap: 15px; margin: 20px 0;\">\n",
   .lit "                <a href=\"https://github.com/AditS-H\" style=\"display: block; background: #24292e; color: white; padding: 15px; text-decoration: none; border-radius: 10px; text-align: center; font-weight: 600;\">\n",
   .lit "                  🔗 Check my GitHub\n",
   .lit "                </a>\n",
   .lit "                <a href=\"https://www.linkedin.com/in/adit-sharma-387551312/\" style=\"display: block; background: #0077b5; color: white; padding: 15px; text-decoration: none; border-radius: 10px; text-align: center; font-weight: 600;\">\n",
   .lit "                  💼 Connect on LinkedIn\n",
   .lit "                </a>\n",
   .lit "              </div>\n",
   .lit "              \n",
   .lit "              <p style=\"font-size: 18px; font-weight: 600; color: #333;\">Looking forward to building something amazing together! 🔥</p>\n",
   .lit "              \n",
   .lit "              <div style=\"margin-top: 40px; padding-top: 30px; border-top: 2px solid #f0f0f0;\">\n",
   .lit "                <p style=\"margin: 0; font-size: 18px; font-weight: 600;\">\n",
   .lit "                  Best regards,<br>\n",
   .lit "                  <span style=\"color: #667eea; font-size: 24px; font-weight: 700;\">Adit Sharma</span><br>\n",
   .lit "                </p>\n",
   .lit "              </div>\n",
   .lit "            </div>\n",
   .lit "\n",
   .lit "            <div style=\"text-align: center; margin-top: 40px; padding-top: 30px; border-top: 1px solid #e1e5e9; background: #f8f9ff; margin-left: -40px; margin-right: -40px; margin-bottom: -40px; padding-left: 40px; padding-right: 40px; padding-bottom: 30px; border-radius: 0 0 15px 15px;\">\n",
   .lit "              <p style=\"color: #667eea; font-size: 14px; margin: 0; font-weight: 600;\">\n",
   .lit "                📧 workadit2@gmail.com • 📱 +91 86303 58219 • 📍 Delhi-NCR, India\n",
   .lit "              </p>\n",
   .lit "            </div>\n",
   .lit "          </div>\n",
   .lit "        </div>\n",
   .lit "      "]

/-- The `text` template of `autoReplyOptions`. -/
def autoReplyText : List Part :=
  [.lit "\n",
   .lit "Hi ",
   .val .name,
   .lit ",\n",
   .lit "\n",
   .lit "Thanks for your interest in working together! I've received your message about \"",
   .val .subject,
   .lit "\" and I'm excited to learn more about your project.\n",
   .lit "\n",
   .lit "What happens next?\n",
   .lit "✓ I'll review your project details carefully\n",
   .lit "✓ You'll hear back from me within 24 hours  \n",
   .lit "✓ We can schedule a call to discuss your vision\n",
   .lit "\n",
   .lit "Your message: \"",
   .val .message,
   .lit "\"\n",
   .lit "\n",
   .lit "In the meantime, feel free to check out my work:\n",
   .lit "- GitHub: https://github.com/AditS-H\n",
   .lit "- LinkedIn: https://www.linkedin.com/in/adit-sharma-387551312/\n",
   .lit "\n",
   .lit "Looking forward to building something amazing together!\n",
   .lit "\n",
   .lit "Best regards,\n",
   .lit "Adit Sharma\n",
   .lit "Full Stack Developer\n",
   .lit "\n",
   .lit "📧 workadit2@gmail.com\n",
   .lit "📱 +91 86303 58219\n",
   .lit "📍 Delhi-NCR, India\n",
   .lit "      "]

/-- The `subject` template of `mailOptions`. -/
def notificationSubject : List Part :=
  [.lit "🚀 New Project Inquiry: ",
   .val .subject]

/-- The `subject` template of `autoReplyOptions`. -/
def autoReplySubject : List Part :=
  [.lit "Thanks for reaching out! Re: ",
   .val .subject]

/-- A message handed to `transporter.sendMail`; `sender` and `recipient` are its
properties `from` and `to`. -/
structure MailOptions where
  sender : Option JSString
  recipient : Option JSString
  subject : JSString
  html : JSString
  text : JSString
deriving DecidableEq

/-- The expression `a || b` on two environment variables. -/
def envOr (a b : Option JSString) : Option JSString :=
  match a with
  | some (c :: t) => some (c :: t)
  | _ => b

/-- The object `mailOptions`: the notification. -/
def mailOptions (env : Env) (w : World) (d : SanitizedData) : MailOptions where
  sender := env.EMAIL_USER
  recipient := envOr env.WORK_EMAIL env.EMAIL_USER
  subject := render d w notificationSubject
  html := render d w (notificationHtml d)
  text := render d w (notificationText d)

/-- The object `autoReplyOptions`: the auto-reply. -/
def autoReplyOptions (env : Env) (w : World) (d : SanitizedData) : MailOptions where
  sender := env.EMAIL_USER
  recipient := some d.email
  subject := render d w autoReplySubject
  html := render d w autoReplyHtml
  text := render d w autoReplyText

/-- The JSON response of the handler: `res.status(status).json(\x7bsuccess, error\x7d)`
or `res.status(status).json(\x7bsuccess, message\x7d)`. -/
structure Response where
  status : Nat
  success : Bool
  error : Option JSString := none
  message : Option JSString := none
deriving DecidableEq

/-- A validation failure: status 400 with the given error text. -/
def badRequest (text : String) : Response :=
  { status := 400, success := false, error := some (utf16 text) }

/-- The strict comparison `v === 'text'`. -/
def JsVal.isString (v : JsVal) (text : String) : Bool :=
  match v with
  | .str s => s == utf16 text
  | _ => false

/-- The variable `errorMessage` of the `catch` block. -/
def errorMessage (error : JsError) : String :=
  if error.code.isString "EAUTH" then
    "Email authentication failed. Please contact support."
  else if error.code.isString "ECONNECTION" then
    "Connection failed. Please check your internet connection and try again."
  else if error.code.isString "ETIMEDOUT" then
    "Request timed out. Please try again."
  else "Failed to send message. Please try again later."

/-- The response of the `catch` block. -/
def catchResponse (error : JsError) : Response :=
  { status := 500, success := false, error := some (utf16 (errorMessage error)) }

/-- The response after both mails were sent. -/
def successResponse : Response :=
  { status := 200, success := true,
    message := some (utf16
      "Message sent successfully! You should receive a confirmation email shortly.") }

/-- The method `String.prototype.toLowerCase`: on a string of ASCII code units it
lower-cases the letters `A` to `Z`; otherwise the Unicode mapping applies. -/
def toLowerCase (w : World) (s : JSString) : JSString :=
  if s.all (fun c => decide (c < 128)) then s.map asciiLower else w.lowerNonAscii s

/-- The object `sanitizedData` built from the request body. -/
def sanitize (w : World) (b : Body) : SanitizedData where
  name := sanitizeInput b.name
  email := toLowerCase w (sanitizeInput b.email)
  subject := sanitizeInput b.subject
  message := sanitizeInput b.message
  phone := if b.phone.truthy then sanitizeInput b.phone else []
  company := if b.company.truthy then sanitizeInput b.company else []
  budget := if b.budget.truthy then sanitizeInput b.budget else []
  timeline := if b.timeline.truthy then sanitizeInput b.timeline else []

/-- The rejection of `Promise.all(emailPromises)`, if any: the first promise to
reject decides. -/
def promiseAll (w : World) : Option JsError :=
  match w.sendNotification, w.sendAutoReply with
  | none, none => none
  | some e, none => some e
  | none, some e => some e
  | some e1, some e2 => some (if w.autoReplyRejectsFirst then e2 else e1)

/-- What one run of the handler does: the messages passed to `sendMail`, in call
order, and the response. -/
structure Outcome where
  sent : List MailOptions
  response : Response
deriving DecidableEq

/-- The handler of `POST /api/contact`.  An exception thrown inside the `try`
block, and the rejection of `Promise.all`, reach the `catch` block.
`createTransporter()` only builds the transport object from constants and the
environment and is not a source of failure; logging is left out. -/
def contact (env : Env) (w : World) (b : Body) : Outcome :=
  if !b.name.truthy || !b.email.truthy || !b.subject.truthy || !b.message.truthy then
    ⟨[], badRequest "Name, email, subject, and message are required fields"⟩
  else
    match isValidEmail b.email with
    | .error e => ⟨[], catchResponse e⟩
    | .ok false => ⟨[], badRequest "Please provide a valid email address"⟩
    | .ok true =>
      let d := sanitize w b
      if d.name.length < 2 || d.name.length > 100 then
        ⟨[], badRequest "Name must be between 2 and 100 characters"⟩
      else if d.message.length < 10 || d.message.length > 2000 then
        ⟨[], badRequest "Message must be between 10 and 2000 characters"⟩
      else if d.subject.length > 200 then
        ⟨[], badRequest "Subject must be less than 200 characters"⟩
      else
        let sent := [mailOptions env w d, autoReplyOptions env w d]
        match promiseAll w with
        | some e => ⟨sent, catchResponse e⟩
        | none => ⟨sent, successResponse⟩

/-! ## Notions used by the statements -/

/-- A property of the body that is absent, or is the empty string. -/
def JsVal.absentOrEmpty : JsVal → Bool
  | .undefined => true
  | .str [] => true
  | _ => false

/-- The four required properties are present: none of them is rejected by the
first check of the handler. -/
def requiredPresent (b : Body) : Bool :=
  b.name.truthy && b.email.truthy && b.subject.truthy && b.message.truthy

/-- The name rule fails: the sanitized name has a length outside `[2, 100]`. -/
def nameRuleFails (b : Body) : Bool :=
  decide ((sanitizeInput b.name).length < 2) || decide (100 < (sanitizeInput b.name).length)

/-- The message rule fails: the sanitized message has a length outside
`[10, 2000]`. -/
def messageRuleFails (b : Body) : Bool :=
  decide ((sanitizeInput b.message).length < 10) ||
    decide (2000 < (sanitizeInput b.message).length)

/-- The subject rule fails: the sanitized subject is longer than 200. -/
def subjectRuleFails (b : Body) : Bool := decide (200 < (sanitizeInput b.subject).length)

/-- The email rule fails: `isValidEmail` does not answer `true`. -/
def emailRuleFails (b : Body) : Bool :=
  match isValidEmail b.email with
  | .ok true => false
  | _ => true

/-- The validation rules in the order in which the specification declares them
(section 4.2, "Rules, in order, first failure wins"), each with the error text the
handler has for it: whether the rule fails, and the text.  A required field counts
as missing or empty when JavaScript takes it for false. -/
def specRules (b : Body) : List (Bool × String) :=
  [(!requiredPresent b, "Name, email, subject, and message are required fields"),
   (emailRuleFails b, "Please provide a valid email address"),
   (nameRuleFails b, "Name must be between 2 and 100 characters"),
   (messageRuleFails b, "Message must be between 10 and 2000 characters"),
   (subjectRuleFails b, "Subject must be less than 200 characters")]

/-- The error text of the first rule that fails, in the declared order. -/
def specFirstFailure (b : Body) : Option String :=
  ((specRules b).find? (fun r => r.1)).map (fun r => r.2)

/-- The submission passes all validation rules of the handler. -/
def accepted (b : Body) : Prop :=
  requiredPresent b = true ∧ isValidEmail b.email = .ok true ∧ nameRuleFails b = false ∧
    messageRuleFails b = false ∧ subjectRuleFails b = false

/-- The value of `sanitizeInput` on a string before the final
`.substring(0, 2000)`: the four replacements and `trim`. -/
def stripped (s : JSString) : JSString :=
  trim (replaceAll reOnHandler (replaceAll reJavascript
    (replaceAll reAngle (replaceAll reScript s))))

/-- Every code unit that the pattern can consume satisfies `P`. -/
def Re.Within (P : Nat → Prop) : Re → Prop
  | .chr p => ∀ c, p c = true → P c
  | .seq a b => a.Within P ∧ b.Within P
  | .rep r _ => r.Within P
  | .notAhead _ => True
  | .wordBoundary => True
  | .bol => True
  | .eol => True

/-- The pattern ends with `$`. -/
def Re.EndsAtEol : Re → Prop
  | .seq _ b => b.EndsAtEol
  | .eol => True
  | _ => False

/-- The tests of the pattern do not tell a code unit `c` from `f c`. -/
def Re.Respects (f : Nat → Nat) : Re → Prop
  | .chr p => ∀ c, p (f c) = p c
  | .seq a b => a.Respects f ∧ b.Respects f
  | .rep r _ => r.Respects f
  | .notAhead r => r.Respects f
  | .wordBoundary => ∀ c, isWordChar (f c) = isWordChar c
  | .bol => True
  | .eol => True

/-- The error of a failed dispatch, read off the two sends: the rejection of the
only send that is rejected, or, when both are rejected, the rejection of the one
that is rejected first. -/
def dispatchError (w : World) (e : JsError) : Prop :=
  (w.sendNotification = some e ∧ w.sendAutoReply = none) ∨
  (w.sendNotification = none ∧ w.sendAutoReply = some e) ∨
  (∃ e1 e2, w.sendNotification = some e1 ∧ w.sendAutoReply = some e2 ∧
    e = if w.autoReplyRejectsFirst then e2 else e1)

/-! ## Sample data -/

/-- An environment with both addresses configured. -/
def sampleEnv : Env :=
  { EMAIL_USER := some (utf16 "sender@example.com"), WORK_EMAIL := some (utf16 "work@example.com") }

/-- A world in which both sends succeed. -/
def calmWorld : World := {}

/-- The accepted submission of the specification's scenario. -/
def bodyJo : Body :=
  { name := .str (utf16 "Jo"), email := .str (utf16 "jo@example.com"),
    subject := .str (utf16 "Hi"), message := .str (utf16 "1234567890") }

/-- The submission of the specification's scenario with a name and a message that
are both too short. -/
def bodyShort : Body :=
  { name := .str (utf16 "J"), email := .str (utf16 "jo@example.com"),
    subject := .str (utf16 "Hi"), message := .str (utf16 "short") }

/-- A submission whose email is an object with an own property `toString`, as the
JSON text `\x7b"toString": 1\x7d` gives. -/
def bodyThrowing : Body :=
  { name := .str (utf16 "J"), email := .obj [(utf16 "toString", .num 1)],
    subject := .str (utf16 "Hi"), message := .str (utf16 "short") }

/-- A submission without a subject. -/
def bodyNoSubject : Body :=
  { name := .str (utf16 "Jo"), email := .str (utf16 "jo@example.com"),
    subject := .undefined, message := .str (utf16 "1234567890") }

/-- A submission whose email has no `@`. -/
def bodyBadEmail : Body :=
  { name := .str (utf16 "Jo"), email := .str (utf16 "jo.example.com"),
    subject := .str (utf16 "Hi"), message := .str (utf16 "1234567890") }

/-- The accepted submission with a company and no phone. -/
def bodyCompany : Body :=
  { name := .str (utf16 "Jo"), email := .str (utf16 "jo@example.com"),
    subject := .str (utf16 "Hi"), message := .str (utf16 "1234567890"),
    company := .str (utf16 "Acme") }

/-- An authentication failure of the mail transport. -/
def authError : JsError :=
  { code := .str (utf16 "EAUTH"), message := utf16 "Invalid login: 535 Bad credentials" }

/-- A world in which the notification is rejected with `authError`. -/
def authWorld : World := { sendNotification := some authError }

/-- A string of 2001 code units: 1999 letters `a`, a blank, and one more `a`. -/
def longTail : JSString := List.replicate 1999 97 ++ [32, 97]

/-- A string of 2001 letters `a`. -/
def longText : JSString := List.replicate 2001 97

/-- The accepted submission with a subject of three blanks. -/
def bodyBlankSubject : Body :=
  { name := .str (utf16 "Jo"), email := .str (utf16 "jo@example.com"),
    subject := .str (utf16 "   "), message := .str (utf16 "1234567890") }

/-- The submission whose email is `onx=y@b.com`. -/
def bodyHandlerEmail : Body :=
  { name := .str (utf16 "Jo"), email := .str (utf16 "onx=y@b.com"),
    subject := .str (utf16 "Hi"), message := .str (utf16 "1234567890") }

/-- The submission whose message is `longText`. -/
def bodyLongMessage : Body :=
  { name := .str (utf16 "Jo"), email := .str (utf16 "jo@example.com"),
    subject := .str (utf16 "Hi"), message := .str longText }

/-- A string of 2001 blanks. -/
def longBlank : JSString := List.replicate 2001 32

/-- The submission whose message is `longBlank`. -/
def bodyBlankMessage : Body :=
  { name := .str (utf16 "Jo"), email := .str (utf16 "jo@example.com"),
    subject := .str (utf16 "Hi"), message := .str longBlank }

/-- The submission at the upper bounds: a name of 100, a subject of 200 and a
message of 2000 letters `a`. -/
def bodyEdge : Body :=
  { name := .str (List.replicate 100 97), email := .str (utf16 "jo@example.com"),
    subject := .str (List.replicate 200 97), message := .str (List.replicate 2000 97) }

/-- The submission whose email is the one-element array `["jo@example.com"]`. -/
def bodyArrayEmail : Body :=
  { name := .str (utf16 "Jo"), email := .arr [.str (utf16 "jo@example.com")],
    subject := .str (utf16 "Hi"), message := .str (utf16 "1234567890") }

/-- The submission of `bodyThrowing` with a plain object `\x7b\x7d` as email. -/
def bodyPlainObject : Body :=
  { name := .str (utf16 "J"), email := .obj [],
    subject := .str (utf16 "Hi"), message := .str (utf16 "short") }

/-- A submission that is in order except for its email, an object with an own
property `toString`. -/
def bodyThrowingOnly : Body :=
  { name := .str (utf16 "Jo"), email := .obj [(utf16 "toString", .num 1)],
    subject := .str (utf16 "Hi"), message := .str (utf16 "1234567890") }

/-- The submission of `bodyThrowingOnly` with the number 5 as email. -/
def bodyNumberEmail : Body :=
  { name := .str (utf16 "Jo"), email := .num 5,
    subject := .str (utf16 "Hi"), message := .str (utf16 "1234567890") }

/-- The accepted submission with upper-case letters in its email. -/
def bodyUpper : Body :=
  { name := .str (utf16 "Jo"), email := .str (utf16 "Jo@Example.COM"),
    subject := .str (utf16 "Hi"), message := .str (utf16 "1234567890") }

/-- An environment in which `WORK_EMAIL` is not set. -/
def envNoWork : Env :=
  { EMAIL_USER := some (utf16 "sender@example.com"), WORK_EMAIL := none }

/-- A timeout of the mail transport. -/
def timeoutError : JsError :=
  { code := .str (utf16 "ETIMEDOUT"), message := utf16 "Connection timeout" }

/-- A world in which only the auto-reply is rejected, with `authError`. -/
def replyAuthWorld : World := { sendAutoReply := some authError }

/-- A world in which both sends are rejected, the auto-reply first. -/
def bothFailWorld : World :=
  { sendNotification := some authError, sendAutoReply := some timeoutError,
    autoReplyRejectsFirst := true }

/-! ## The matcher -/

/-- A successful quantifier loop ends in a successful call of its continuation on
a suffix of the input, provided one iteration does. -/
theorem repLoop_some (step : Option Nat → JSString → Cont → Option JSString)
    (hstep : ∀ prev s k x, step prev s k = some x → ∃ p s1, s1 <:+ s ∧ k p s1 = some x) :
    ∀ (fuel : Nat) (max prev s k x), repLoop step fuel max prev s k = some x →
      ∃ p s1, s1 <:+ s ∧ k p s1 = some x := by
  intro fuel
  induction fuel with
  | zero =>
    intro max prev s k x h
    exact ⟨prev, s, List.suffix_refl s, h⟩
  | succ n ih =>
    intro max prev s k x h
    rw [repLoop] at h
    split at h
    · exact ⟨prev, s, List.suffix_refl s, h⟩
    · split at h
      · rename_i r hr
        obtain ⟨p1, s1, hs1, hk⟩ := hstep _ _ _ _ hr
        split at hk
        · obtain ⟨p2, s2, hs2, hk2⟩ := ih _ _ _ _ _ hk
          cases h
          exact ⟨p2, s2, hs2.trans hs1, hk2⟩
        · cases hk
      · exact ⟨prev, s, List.suffix_refl s, h⟩

/-- A successful match ends in a successful call of the continuation, on a suffix
of the input. -/
theorem Re.m_some (r : Re) : ∀ (prev : Option Nat) (s : JSString) (k : Cont) (x : JSString),
    r.m prev s k = some x → ∃ p s1, s1 <:+ s ∧ k p s1 = some x := by
  induction r with
  | chr p =>
    intro prev s k x h
    unfold Re.m at h
    split at h
    · rename_i c t
      split at h
      · exact ⟨some c, t, List.suffix_cons c t, h⟩
      · cases h
    · cases h
  | seq a b iha ihb =>
    intro prev s k x h
    unfold Re.m at h
    obtain ⟨p1, s1, hs1, h1⟩ := iha _ _ _ _ h
    obtain ⟨p2, s2, hs2, h2⟩ := ihb _ _ _ _ h1
    exact ⟨p2, s2, hs2.trans hs1, h2⟩
  | rep r max ih =>
    intro prev s k x h
    unfold Re.m at h
    exact repLoop_some r.m ih _ _ _ _ _ _ h
  | notAhead r _ =>
    intro prev s k x h
    unfold Re.m at h
    split at h
    · cases h
    · exact ⟨prev, s, List.suffix_refl s, h⟩
  | wordBoundary =>
    intro prev s k x h
    unfold Re.m at h
    split at h
    · exact ⟨prev, s, List.suffix_refl s, h⟩
    · cases h
  | bol =>
    intro prev s k x h
    unfold Re.m at h
    split at h
    · exact ⟨prev, s, List.suffix_refl s, h⟩
    · cases h
  | eol =>
    intro prev s k x h
    unfold Re.m at h
    split at h
    · exact ⟨prev, s, List.suffix_refl s, h⟩
    · cases h

/-- The quantifier loop looks at its continuation only on inputs that are not
longer than the current one, provided one iteration does. -/
theorem repLoop_congr (step : Option Nat → JSString → Cont → Option JSString)
    (hstep : ∀ prev s (k k1 : Cont), (∀ p s1, s1.length ≤ s.length → k p s1 = k1 p s1) →
      step prev s k = step prev s k1) :
    ∀ (fuel : Nat) (max prev s) (k k1 : Cont),
      (∀ p s1, s1.length ≤ s.length → k p s1 = k1 p s1) →
      repLoop step fuel max prev s k = repLoop step fuel max prev s k1 := by
  intro fuel
  induction fuel with
  | zero =>
    intro max prev s k k1 h
    exact h prev s (Nat.le_refl _)
  | succ n ih =>
    intro max prev s k k1 h
    rw [repLoop, repLoop]
    have hk := h prev s (Nat.le_refl _)
    have hs : step prev s (fun prev1 s1 =>
          if s1.length < s.length then repLoop step n (max.map (· - 1)) prev1 s1 k else none) =
        step prev s (fun prev1 s1 =>
          if s1.length < s.length then repLoop step n (max.map (· - 1)) prev1 s1 k1
          else none) := by
      apply hstep
      intro p s1 _
      by_cases hlt : s1.length < s.length
      · simp only [hlt, if_true]
        exact ih _ _ _ _ _ (fun p2 s2 h2 => h p2 s2 (Nat.le_trans h2 (Nat.le_of_lt hlt)))
      · simp only [hlt, if_false]
    rw [hs, hk]

/-- The matcher looks at its continuation only on inputs that are not longer than
the current one. -/
theorem Re.m_congr (r : Re) : ∀ (prev : Option Nat) (s : JSString) (k k1 : Cont),
    (∀ p s1, s1.length ≤ s.length → k p s1 = k1 p s1) → r.m prev s k = r.m prev s k1 := by
  induction r with
  | chr p =>
    intro prev s k k1 h
    unfold Re.m
    cases s with
    | nil => rfl
    | cons c t =>
      simp only
      rw [h (some c) t (Nat.le_succ _)]
  | seq a b iha ihb =>
    intro prev s k k1 h
    unfold Re.m
    apply iha
    intro p s1 h1
    exact ihb _ _ _ _ (fun p2 s2 h2 => h p2 s2 (Nat.le_trans h2 h1))
  | rep r max ih =>
    intro prev s k k1 h
    unfold Re.m
    exact repLoop_congr r.m ih _ _ _ _ _ _ h
  | notAhead r _ =>
    intro prev s k k1 h
    unfold Re.m
    rw [h prev s (Nat.le_refl _)]
  | wordBoundary =>
    intro prev s k k1 h
    unfold Re.m
    rw [h prev s (Nat.le_refl _)]
  | bol =>
    intro prev s k k1 h
    unfold Re.m
    rw [h prev s (Nat.le_refl _)]
  | eol =>
    intro prev s k k1 h
    unfold Re.m
    rw [h prev s (Nat.le_refl _)]

/-- A match fails when its continuation fails on every suffix of the input. -/
theorem Re.m_none (r : Re) (prev : Option Nat) (s : JSString) (k : Cont)
    (h : ∀ p s1, s1 <:+ s → k p s1 = none) : r.m prev s k = none := by
  cases hm : r.m prev s k with
  | none => rfl
  | some x =>
    obtain ⟨p, s1, hs1, hk⟩ := Re.m_some r prev s k x hm
    rw [h p s1 hs1] at hk
    cases hk

/-- One more unit of the loop bound changes nothing once the bound has reached
the length of the input. -/
theorem repLoop_fuel (r : Re) :
    ∀ (fuel : Nat) (max prev s) (k : Cont), s.length ≤ fuel →
      repLoop r.m (fuel + 1) max prev s k = repLoop r.m fuel max prev s k := by
  intro fuel
  induction fuel with
  | zero =>
    intro max prev s k hlen
    have hs : s = [] := List.length_eq_zero.mp (Nat.le_zero.mp hlen)
    subst hs
    rw [repLoop, repLoop]
    split
    · rfl
    · rw [Re.m_none r prev [] _ (fun p s1 _ => by simp)]
  | succ n ih =>
    intro max prev s k hlen
    conv_lhs => rw [repLoop]
    conv_rhs => rw [repLoop]
    split
    · rfl
    · have hs : r.m prev s (fun prev1 s1 =>
            if s1.length < s.length then repLoop r.m (n + 1) (max.map (· - 1)) prev1 s1 k
            else none) =
          r.m prev s (fun prev1 s1 =>
            if s1.length < s.length then repLoop r.m n (max.map (· - 1)) prev1 s1 k
            else none) := by
        apply Re.m_congr
        intro p s1 _
        by_cases hlt : s1.length < s.length
        · simp only [hlt, if_true]
          exact ih _ _ _ _ (by omega)
        · simp only [hlt, if_false]
      rw [hs]

/-- The quantifier does not depend on the bound of its loop: every bound from the
length of the input on gives the same result. -/
theorem repLoop_fuel_irrelevant (r : Re) (max : Option Nat) (prev : Option Nat)
    (s : JSString) (k : Cont) (extra : Nat) :
    repLoop r.m (s.length + extra) max prev s k = (Re.rep r max).m prev s k := by
  induction extra with
  | zero => unfold Re.m; rfl
  | succ n ih =>
    rw [← ih, ← Nat.add_assoc]
    exact repLoop_fuel r _ _ _ _ _ (Nat.le_add_right _ _)

/-! ## The handler, check by check -/

theorem contact_of_missing (env : Env) (w : World) (b : Body) (h : requiredPresent b = false) :
    contact env w b =
      ⟨[], badRequest "Name, email, subject, and message are required fields"⟩ := by
  unfold contact
  simp only [requiredPresent] at h
  rw [if_pos]
  · revert h
    cases b.name.truthy <;> cases b.email.truthy <;> cases b.subject.truthy <;>
      cases b.message.truthy <;> simp

theorem contact_of_present (env : Env) (w : World) (b : Body) (h : requiredPresent b = true) :
    contact env w b =
      match isValidEmail b.email with
      | .error e => ⟨[], catchResponse e⟩
      | .ok false => ⟨[], badRequest "Please provide a valid email address"⟩
      | .ok true =>
        if nameRuleFails b then ⟨[], badRequest "Name must be between 2 and 100 characters"⟩
        else if messageRuleFails b then
          ⟨[], badRequest "Message must be between 10 and 2000 characters"⟩
        else if subjectRuleFails b then
          ⟨[], badRequest "Subject must be less than 200 characters"⟩
        else
          match promiseAll w with
          | some e => ⟨[mailOptions env w (sanitize w b), autoReplyOptions env w (sanitize w b)],
              catchResponse e⟩
          | none => ⟨[mailOptions env w (sanitize w b), autoReplyOptions env w (sanitize w b)],
              successResponse⟩ := by
  unfold contact
  simp only [requiredPresent, Bool.and_eq_true] at h
  obtain ⟨⟨⟨h1, h2⟩, h3⟩, h4⟩ := h
  rw [if_neg (by simp [h1, h2, h3, h4])]
  cases isValidEmail b.email with
  | error e => rfl
  | ok v =>
    cases v with
    | false => rfl
    | true =>
      simp only [nameRuleFails, messageRuleFails, subjectRuleFails, sanitize, Bool.or_eq_true,
        decide_eq_true_eq, gt_iff_lt]

theorem truthy_of_absentOrEmpty (v : JsVal) (h : v.absentOrEmpty = true) : v.truthy = false := by
  unfold JsVal.absentOrEmpty at h
  split at h
  · rfl
  · rfl
  · exact absurd h (by simp)

theorem isValidEmail_of_toStr (v : JsVal) (s : JSString) (h : v.toStr = .ok s) :
    isValidEmail v = .ok (emailRegex.test s && lengthAtMost v 254) := by
  simp [isValidEmail, emailRegexTest, h]

/-- The pattern of `isValidEmail` is not matched by the text of an object, so the
comparison of its `length` is not reached. -/
theorem emailRegexTest_obj (fields : List (JSString × JsVal)) :
    emailRegexTest (.obj fields) ≠ .ok true := by
  have h : emailRegex.test (utf16 "[object Object]") = false := by decide
  unfold emailRegexTest JsVal.toStr
  by_cases hk : hasOwn fields (utf16 "toString") = true
  · simp [hk]
  · simp [hk, h]

theorem contact_of_accepted (env : Env) (w : World) (b : Body) (h : accepted b) :
    contact env w b =
      match promiseAll w with
      | some e => ⟨[mailOptions env w (sanitize w b), autoReplyOptions env w (sanitize w b)],
          catchResponse e⟩
      | none => ⟨[mailOptions env w (sanitize w b), autoReplyOptions env w (sanitize w b)],
          successResponse⟩ := by
  obtain ⟨hp, hv, hn, hm, hs⟩ := h
  rw [contact_of_present env w b hp, hv]
  simp [hn, hm, hs]

theorem isString_iff (v : JsVal) (text : String) :
    v.isString text = true ↔ v = .str (utf16 text) := by
  cases v <;> simp [JsVal.isString]

/-! ## Validation -/

/-- The order of the validation rules.  For every submission that lacks a required
field, or whose email can be converted to a string without an exception, the
handler reports the first failing validation rule in the order (1) required field
missing or empty, (2) email invalid, (3) sanitized name length outside [2,100],
(4) sanitized message length outside [10,2000], (5) sanitized subject longer than
200: the response is 400 with that rule's text and nothing is sent, and no 400 is
sent when no rule fails.  In particular a submission with the four fields present
and a valid email that fails both the name rule and the message rule gets 400 with
the name error, not the message error. -/
theorem contact_reports_first_failing_rule (env : Env) (w : World) (b : Body) :
    ((requiredPresent b = false ∨ ∃ s, b.email.toStr = .ok s) →
      (∀ text, specFirstFailure b = some text → contact env w b = ⟨[], badRequest text⟩) ∧
      (specFirstFailure b = none → (contact env w b).response.status ≠ 400)) ∧
    (requiredPresent b = true → isValidEmail b.email = .ok true → nameRuleFails b = true →
      messageRuleFails b = true →
      contact env w b = ⟨[], badRequest "Name must be between 2 and 100 characters"⟩ ∧
      (contact env w b).response.status = 400 ∧
      (contact env w b).response.error ≠
        some (utf16 "Message must be between 10 and 2000 characters")) := by
  constructor
  · rintro (hp | ⟨s, hs⟩)
    · rw [contact_of_missing env w b hp]
      simp [specFirstFailure, specRules, hp]
    have hv := isValidEmail_of_toStr b.email s hs
    cases hp : requiredPresent b with
    | false =>
      rw [contact_of_missing env w b hp]
      simp [specFirstFailure, specRules, hp]
    | true =>
      rw [contact_of_present env w b hp]
      generalize (emailRegex.test s && lengthAtMost b.email 254) = v at hv
      rw [hv]
      cases v with
      | false =>
        simp [specFirstFailure, specRules, hp, emailRuleFails, hv]
      | true =>
        cases hn : nameRuleFails b <;> cases hm : messageRuleFails b <;>
          cases hsub : subjectRuleFails b <;> cases hpa : promiseAll w <;>
          simp [specFirstFailure, specRules, hp, emailRuleFails, hv, hn, hm, hsub,
            catchResponse, successResponse]
  · intro hp hv hn hm
    rw [contact_of_present env w b hp, hv]
    simp only [hn, if_true, true_and]
    refine ⟨rfl, ?_⟩
    simp only [badRequest]
    decide

/-- Witness of `contact_reports_first_failing_rule` at the scenario with name `J` and
message `short`. -/
theorem contact_reports_first_failing_rule_witness :
    specFirstFailure bodyShort = some "Name must be between 2 and 100 characters" ∧
    contact sampleEnv calmWorld bodyShort =
      ⟨[], badRequest "Name must be between 2 and 100 characters"⟩ :=
  ⟨by decide,
   ((contact_reports_first_failing_rule sampleEnv calmWorld bodyShort).2
      (by decide) (by rfl) (by decide) (by decide)).1⟩

/-- C1, at the failing input: the submission has a name and a message that are too
short and an email that is an object with an own `toString` property.  The first
failing rule is the email rule, yet the handler answers 500 with the generic text
of a failed send instead of the 400 of that rule; the same submission with a plain
object as email gets the 400 `Please provide a valid email address`. -/
theorem contact_throwing_email_not_reported :
    specFirstFailure bodyThrowing = some "Please provide a valid email address" ∧
    contact sampleEnv calmWorld bodyThrowing ≠
      ⟨[], badRequest "Please provide a valid email address"⟩ ∧
    (contact sampleEnv calmWorld bodyThrowing).response =
      { status := 500, success := false,
        error := some (utf16 "Failed to send message. Please try again later.") } ∧
    specFirstFailure bodyPlainObject = some "Please provide a valid email address" ∧
    contact sampleEnv calmWorld bodyPlainObject =
      ⟨[], badRequest "Please provide a valid email address"⟩ := by
  decide

/-- C2: when at least one of name, email, subject and message is absent or the
empty string, the handler answers 400 with the text `Name, email, subject, and
message are required fields`, and `sendMail` is not called. -/
theorem contact_missing_field (env : Env) (w : World) (b : Body)
    (h : b.name.absentOrEmpty = true ∨ b.email.absentOrEmpty = true ∨
      b.subject.absentOrEmpty = true ∨ b.message.absentOrEmpty = true) :
    (contact env w b).response =
      { status := 400, success := false,
        error := some (utf16 "Name, email, subject, and message are required fields") } ∧
    (contact env w b).sent = [] := by
  have hp : requiredPresent b = false := by
    unfold requiredPresent
    rcases h with h | h | h | h <;> simp [truthy_of_absentOrEmpty _ h]
  rw [contact_of_missing env w b hp]
  exact ⟨rfl, rfl⟩

/-- Witness of `contact_missing_field` at a submission without a subject. -/
theorem contact_missing_field_witness :
    (contact sampleEnv calmWorld bodyNoSubject).response.status = 400 ∧
    (contact sampleEnv calmWorld bodyNoSubject).sent = [] :=
  have h := contact_missing_field sampleEnv calmWorld bodyNoSubject
    (Or.inr (Or.inr (Or.inl rfl)))
  ⟨by rw [h.1], h.2⟩

/-- When the four required fields are present and `emailRegex.test(email)` answers
false, or the email is a string of more than 254 code units, the handler answers
400 with the text `Please provide a valid email address`, and `sendMail` is not
called. -/
theorem contact_invalid_email (env : Env) (w : World) (b : Body)
    (hp : requiredPresent b = true)
    (h : emailRegexTest b.email = .ok false ∨ ∃ s, b.email = .str s ∧ 254 < s.length) :
    (contact env w b).response =
      { status := 400, success := false,
        error := some (utf16 "Please provide a valid email address") } ∧
    (contact env w b).sent = [] := by
  have hv : isValidEmail b.email = .ok false := by
    rcases h with h | ⟨s, hs, hlen⟩
    · simp [isValidEmail, h]
    · rw [isValidEmail_of_toStr b.email s (by rw [hs]; rfl), hs]
      simp [lengthAtMost, hlen]
  rw [contact_of_present env w b hp, hv]
  exact ⟨rfl, rfl⟩

/-- Witness of `contact_invalid_email` at a submission whose email has no `@`. -/
theorem contact_invalid_email_witness :
    (contact sampleEnv calmWorld bodyBadEmail).response.status = 400 ∧
    (contact sampleEnv calmWorld bodyBadEmail).sent = [] :=
  have h := contact_invalid_email sampleEnv calmWorld bodyBadEmail (by decide) (Or.inl (by rfl))
  ⟨by rw [h.1], h.2⟩

/-- C3, at the failing input: the four required fields are present and the email is
an object with an own `toString` property.  It does not pass `isValidEmail` (the
call throws), so the email rule fails, yet the handler answers 500 with the generic
text of a failed send, not 400; nothing is sent.  The same submission with the
number 5 as email gets the 400 `Please provide a valid email address`. -/
theorem contact_throwing_email_not_rejected :
    requiredPresent bodyThrowingOnly = true ∧ emailRuleFails bodyThrowingOnly = true ∧
    (contact sampleEnv calmWorld bodyThrowingOnly).response =
      { status := 500, success := false,
        error := some (utf16 "Failed to send message. Please try again later.") } ∧
    (contact sampleEnv calmWorld bodyThrowingOnly).response ≠
      badRequest "Please provide a valid email address" ∧
    (contact sampleEnv calmWorld bodyThrowingOnly).sent = [] ∧
    contact sampleEnv calmWorld bodyNumberEmail =
      ⟨[], badRequest "Please provide a valid email address"⟩ := by
  decide

/-! ## The sanitizer -/

theorem replaceGo_sublist (r : Re) (s : JSString) :
    ∀ (prev : Option Nat) (skip : Nat), (replaceGo r prev skip s).Sublist s := by
  induction s with
  | nil => intro prev skip; simp [replaceGo]
  | cons c t ih =>
    intro prev skip
    cases skip with
    | succ n =>
      rw [replaceGo]
      exact (ih (some c) n).trans (List.sublist_cons_self c t)
    | zero =>
      rw [replaceGo]
      split
      · exact (ih (some c) _).trans (List.sublist_cons_self c t)
      · exact (ih (some c) 0).cons₂ c

theorem replaceAll_sublist (r : Re) (s : JSString) : (replaceAll r s).Sublist s :=
  replaceGo_sublist r s none 0

theorem trim_sublist (s : JSString) : (trim s).Sublist s := by
  unfold trim
  have h1 : ((s.dropWhile isJsSpace).reverse.dropWhile isJsSpace).Sublist
      (s.dropWhile isJsSpace).reverse := List.dropWhile_sublist _
  have h2 := List.reverse_sublist.mpr h1
  rw [List.reverse_reverse] at h2
  exact h2.trans (List.dropWhile_sublist _)

theorem matchAt_chr (p : Nat → Bool) (prev : Option Nat) (c : Nat) (t : JSString) :
    (Re.chr p).matchAt prev (c :: t) = if p c then some 1 else none := by
  unfold Re.matchAt Re.m accept
  cases h : p c <;> simp [h]

theorem replaceGo_chr_clean (p : Nat → Bool) (s : JSString) :
    ∀ (prev : Option Nat), ∀ x ∈ replaceGo (.chr p) prev 0 s, p x = false := by
  induction s with
  | nil => intro prev x hx; simp [replaceGo] at hx
  | cons c t ih =>
    intro prev x hx
    rw [replaceGo, matchAt_chr] at hx
    cases hp : p c with
    | true =>
      simp only [hp, if_true] at hx
      exact ih (some c) x hx
    | false =>
      simp only [hp] at hx
      rcases List.mem_cons.mp hx with h | h
      · rw [h]; exact hp
      · exact ih (some c) x h

theorem sanitizeString_sublist (s : JSString) :
    (sanitizeString s).Sublist (replaceAll reAngle (replaceAll reScript s)) := by
  unfold sanitizeString
  exact (List.take_sublist _ _).trans ((trim_sublist _).trans
    ((replaceAll_sublist _ _).trans (replaceAll_sublist _ _)))

theorem sanitizeString_no_angle (s : JSString) (x : Nat) (hx : x ∈ sanitizeString s) :
    x ≠ 60 ∧ x ≠ 62 := by
  have h := replaceGo_chr_clean (fun c => c == 60 || c == 62) (replaceAll reScript s) none x
    ((sanitizeString_sublist s).subset hx)
  simpa using h

theorem reScript_needs_angle (prev : Option Nat) (s : JSString) (h : 60 ∉ s) :
    reScript.matchAt prev s = none := by
  have hlit : utf16 "<script" = [60, 115, 99, 114, 105, 112, 116] := by decide
  unfold reScript Re.matchAt
  rw [hlit]
  cases s with
  | nil => simp [Re.litI, Re.m]
  | cons c t =>
    have hc : c ≠ 60 := fun e => h (by simp [e])
    have : eqIgnoreCase 60 c = false := by
      simp only [eqIgnoreCase, asciiLower, isUpper]
      by_cases h1 : 65 ≤ c <;> by_cases h2 : c ≤ 90 <;> simp [h1, h2] <;> omega
    simp [Re.litI, Re.m, this]

/-- C4, at the failing input: sanitising `javajavascript:script:` gives
`javascript:`, and sanitising that again gives the empty string, so the second
application changes the result of the first. -/
theorem sanitizeInput_not_idempotent :
    sanitizeInput (.str (utf16 "javajavascript:script:")) = utf16 "javascript:" ∧
    sanitizeInput (.str (sanitizeInput (.str (utf16 "javajavascript:script:")))) = [] ∧
    sanitizeInput (.str (sanitizeInput (.str (utf16 "javajavascript:script:")))) ≠
      sanitizeInput (.str (utf16 "javajavascript:script:")) := by
  decide

/-- C5: the output of `sanitizeInput` contains neither `<` (code unit 60) nor `>`
(code unit 62), for every input value; hence the script-block pattern matches at
no position of the output. -/
theorem sanitizeInput_no_angle_brackets (input : JsVal) :
    60 ∉ sanitizeInput input ∧ 62 ∉ sanitizeInput input ∧
    ∀ (pre suf : JSString) (prev : Option Nat), sanitizeInput input = pre ++ suf →
      reScript.matchAt prev suf = none := by
  have key : ∀ x ∈ sanitizeInput input, x ≠ 60 ∧ x ≠ 62 := by
    intro x hx
    cases input with
    | str s => exact sanitizeString_no_angle s x hx
    | _ => simp [sanitizeInput] at hx
  refine ⟨fun h => (key 60 h).1 rfl, fun h => (key 62 h).2 rfl, ?_⟩
  intro pre suf prev hsplit
  apply reScript_needs_angle
  intro h
  exact (key 60 (by rw [hsplit]; exact List.mem_append_right pre h)).1 rfl

/-- Witness of `sanitizeInput_no_angle_brackets` at the input `<b>hi</b>`, whose
output is `bhi/b`. -/
theorem sanitizeInput_no_angle_brackets_witness :
    sanitizeInput (.str (utf16 "<b>hi</b>")) = utf16 "b" ++ utf16 "hi/b" ∧
    reScript.matchAt (some 98) (utf16 "hi/b") = none :=
  ⟨by decide,
   (sanitizeInput_no_angle_brackets (.str (utf16 "<b>hi</b>"))).2.2
     (utf16 "b") (utf16 "hi/b") (some 98) (by decide)⟩

/-- C6, at two failing inputs: the output for `javajavascript:script:` is
`javascript:`, and the output for `oonclick=nclick=` is `onclick=`; each output is
matched by the pattern that was to be removed. -/
theorem sanitizeInput_leaves_patterns :
    sanitizeInput (.str (utf16 "javajavascript:script:")) = utf16 "javascript:" ∧
    reJavascript.test (sanitizeInput (.str (utf16 "javajavascript:script:"))) = true ∧
    sanitizeInput (.str (utf16 "oonclick=nclick=")) = utf16 "onclick=" ∧
    reOnHandler.test (sanitizeInput (.str (utf16 "oonclick=nclick="))) = true := by
  decide

/-! ## Dispatch -/

/-- The fields interpolated into the HTML body of the notification, in order. -/
theorem fieldsOf_notificationHtml (d : SanitizedData) :
    fieldsOf (notificationHtml d) =
      [.name, .email, .email] ++
      (if !d.phone.isEmpty then .phone :: (if !d.company.isEmpty then [.company] else [])
        else []) ++
      [.subject] ++
      (if (!d.budget.isEmpty || !d.timeline.isEmpty) then
        (if !d.budget.isEmpty then [.budget] else []) ++
        (if !d.timeline.isEmpty then [.timeline] else [])
        else []) ++
      [.message, .email] ++ (if !d.phone.isEmpty then [.phone] else []) := by
  obtain ⟨n, e, s, m, p, c, b, t⟩ := d
  cases p <;> cases c <;> cases b <;> cases t <;> rfl

/-- The fields interpolated into the text body of the notification, in order. -/
theorem fieldsOf_notificationText (d : SanitizedData) :
    fieldsOf (notificationText d) =
      [.subject, .name, .email] ++ (if !d.phone.isEmpty then [.phone] else []) ++
      (if !d.company.isEmpty then [.company] else []) ++
      (if !d.budget.isEmpty then [.budget] else []) ++
      (if !d.timeline.isEmpty then [.timeline] else []) ++ [.message] := by
  obtain ⟨n, e, s, m, p, c, b, t⟩ := d
  cases p <;> cases c <;> cases b <;> cases t <;> rfl

/-- In the notification every field other than the company is interpolated into
the HTML body exactly when it is interpolated into the text body. -/
theorem notification_fields_agree (d : SanitizedData) (f : Field) (hf : f ≠ .company) :
    f ∈ fieldsOf (notificationHtml d) ↔ f ∈ fieldsOf (notificationText d) := by
  rw [fieldsOf_notificationHtml, fieldsOf_notificationText]
  obtain ⟨n, e, s, m, p, c, b, t⟩ := d
  cases p <;> cases c <;> cases b <;> cases t <;> cases f <;> simp at hf ⊢

/-- The company is interpolated into the text body of the notification exactly
when it is non-empty, and into the HTML body exactly when the phone is non-empty
as well. -/
theorem notification_company (d : SanitizedData) :
    (Field.company ∈ fieldsOf (notificationText d) ↔ d.company ≠ []) ∧
    (Field.company ∈ fieldsOf (notificationHtml d) ↔ d.phone ≠ [] ∧ d.company ≠ []) := by
  rw [fieldsOf_notificationHtml, fieldsOf_notificationText]
  obtain ⟨n, e, s, m, p, c, b, t⟩ := d
  cases p <;> cases c <;> cases b <;> cases t <;> simp

/-- In the auto-reply the HTML body and the text body interpolate the same
fields: name, subject and message. -/
theorem autoReply_fields_agree :
    fieldsOf autoReplyHtml = [.name, .subject, .message] ∧
    fieldsOf autoReplyText = [.name, .subject, .message] := by
  decide

/-- C8, at the failing input: for the accepted submission with company `Acme` and
no phone, the sanitized company is `Acme`; the text body of the notification
interpolates the company, and the HTML body does not. -/
theorem notification_html_drops_company :
    (sanitize calmWorld bodyCompany).company = utf16 "Acme" ∧
    Field.company ∈ fieldsOf (notificationText (sanitize calmWorld bodyCompany)) ∧
    Field.company ∉ fieldsOf (notificationHtml (sanitize calmWorld bodyCompany)) ∧
    (contact sampleEnv calmWorld bodyCompany).response.status = 200 := by
  decide

/-- C9: for every submission that passes validation, the response is 200 with
`success: true` exactly when both `sendMail` promises are fulfilled; when either is
rejected the response is 500 with `success: false`, whatever the other does. -/
theorem contact_success_iff_both_sent (env : Env) (w : World) (b : Body) (h : accepted b) :
    (((contact env w b).response.status = 200 ∧ (contact env w b).response.success = true) ↔
      (w.sendNotification = none ∧ w.sendAutoReply = none)) ∧
    (w.sendNotification ≠ none ∨ w.sendAutoReply ≠ none →
      (contact env w b).response.status = 500 ∧
      (contact env w b).response.success = false) := by
  rw [contact_of_accepted env w b h]
  unfold promiseAll
  cases h1 : w.sendNotification <;> cases h2 : w.sendAutoReply <;>
    simp [catchResponse, successResponse]

/-- Witness of `contact_success_iff_both_sent` at the accepted scenario, in a world
where the notification is rejected. -/
theorem contact_success_iff_both_sent_witness :
    (contact sampleEnv authWorld bodyJo).response.status = 500 ∧
    (contact sampleEnv authWorld bodyJo).response.success = false :=
  (contact_success_iff_both_sent sampleEnv authWorld bodyJo
    ⟨by decide, by rfl, by decide, by decide, by decide⟩).2 (Or.inl (by simp [authWorld]))

/-- C10: for every accepted submission and every dispatch error (the rejection of
the notification, of the auto-reply, or of the first of the two to be rejected),
the response of the handler has status 500, `success: false`, no `message`, and an
error text chosen by the error's `code` alone: `EAUTH`, `ECONNECTION` and
`ETIMEDOUT` have their own texts and every other code the generic one.  The four
texts are pairwise distinct, and two dispatch errors with the same code get the
same response whatever their messages and whichever send they come from. -/
theorem catch_response_by_code :
    (∀ (env : Env) (w : World) (b : Body) (e : JsError), accepted b → dispatchError w e →
      (contact env w b).response.status = 500 ∧
      (contact env w b).response.success = false ∧
      (contact env w b).response.message = none ∧
      (e.code = .str (utf16 "EAUTH") → (contact env w b).response.error =
        some (utf16 "Email authentication failed. Please contact support.")) ∧
      (e.code = .str (utf16 "ECONNECTION") → (contact env w b).response.error =
        some (utf16
          "Connection failed. Please check your internet connection and try again.")) ∧
      (e.code = .str (utf16 "ETIMEDOUT") → (contact env w b).response.error =
        some (utf16 "Request timed out. Please try again.")) ∧
      (e.code ≠ .str (utf16 "EAUTH") → e.code ≠ .str (utf16 "ECONNECTION") →
        e.code ≠ .str (utf16 "ETIMEDOUT") → (contact env w b).response.error =
        some (utf16 "Failed to send message. Please try again later."))) ∧
    [utf16 "Email authentication failed. Please contact support.",
      utf16 "Connection failed. Please check your internet connection and try again.",
      utf16 "Request timed out. Please try again.",
      utf16 "Failed to send message. Please try again later."].Nodup ∧
    (∀ (env : Env) (w1 w2 : World) (b : Body) (e1 e2 : JsError), accepted b →
      dispatchError w1 e1 → dispatchError w2 e2 → e1.code = e2.code →
      (contact env w1 b).response = (contact env w2 b).response) := by
  have hpa : ∀ (w : World) (e : JsError), dispatchError w e → promiseAll w = some e := by
    intro w e hd
    unfold promiseAll
    rcases hd with ⟨h1, h2⟩ | ⟨h1, h2⟩ | ⟨e1, e2, h1, h2, he⟩
    · rw [h1, h2]
    · rw [h1, h2]
    · rw [h1, h2, he]
  refine ⟨?_, by decide, ?_⟩
  · intro env w b e h hd
    have hr : (contact env w b).response = catchResponse e := by
      rw [contact_of_accepted env w b h, hpa w e hd]
    rw [hr]
    refine ⟨rfl, rfl, rfl, ?_, ?_, ?_, ?_⟩
    · intro he
      have h1 : e.code.isString "EAUTH" = true := (isString_iff _ _).mpr he
      simp [catchResponse, errorMessage, h1]
    · intro he
      have h1 : e.code.isString "EAUTH" = false := by rw [he]; decide
      have h2 : e.code.isString "ECONNECTION" = true := (isString_iff _ _).mpr he
      simp [catchResponse, errorMessage, h1, h2]
    · intro he
      have h1 : e.code.isString "EAUTH" = false := by rw [he]; decide
      have h2 : e.code.isString "ECONNECTION" = false := by rw [he]; decide
      have h3 : e.code.isString "ETIMEDOUT" = true := (isString_iff _ _).mpr he
      simp [catchResponse, errorMessage, h1, h2, h3]
    · intro n1 n2 n3
      have h1 : e.code.isString "EAUTH" = false :=
        Bool.eq_false_iff.mpr (fun h => n1 ((isString_iff _ _).mp h))
      have h2 : e.code.isString "ECONNECTION" = false :=
        Bool.eq_false_iff.mpr (fun h => n2 ((isString_iff _ _).mp h))
      have h3 : e.code.isString "ETIMEDOUT" = false :=
        Bool.eq_false_iff.mpr (fun h => n3 ((isString_iff _ _).mp h))
      simp [catchResponse, errorMessage, h1, h2, h3]
  · intro env w1 w2 b e1 e2 h hd1 hd2 he
    rw [contact_of_accepted env w1 b h, hpa w1 e1 hd1,
      contact_of_accepted env w2 b h, hpa w2 e2 hd2]
    simp [catchResponse, errorMessage, he]

/-- Witness of `catch_response_by_code` at the accepted scenario: in a world where
only the auto-reply is rejected, with code `EAUTH`, the response is 500 with the
authentication text; in a world where both sends are rejected and the auto-reply
is first, with code `ETIMEDOUT`, the response has the timeout text. -/
theorem catch_response_by_code_witness :
    ((contact sampleEnv replyAuthWorld bodyJo).response.status = 500 ∧
      (contact sampleEnv replyAuthWorld bodyJo).response.error =
        some (utf16 "Email authentication failed. Please contact support.")) ∧
    (contact sampleEnv bothFailWorld bodyJo).response.error =
      some (utf16 "Request timed out. Please try again.") ∧
    (contact sampleEnv replyAuthWorld bodyJo).response =
      { status := 500, success := false,
        error := some (utf16 "Email authentication failed. Please contact support.") } ∧
    (contact sampleEnv bothFailWorld bodyJo).response =
      { status := 500, success := false,
        error := some (utf16 "Request timed out. Please try again.") } :=
  have hacc : accepted bodyJo := ⟨by decide, by rfl, by decide, by decide, by decide⟩
  have h1 := catch_response_by_code.1 sampleEnv replyAuthWorld bodyJo authError hacc
    (Or.inr (Or.inl ⟨rfl, rfl⟩))
  have h2 := catch_response_by_code.1 sampleEnv bothFailWorld bodyJo timeoutError hacc
    (Or.inr (Or.inr ⟨authError, timeoutError, rfl, rfl, rfl⟩))
  ⟨⟨h1.1, h1.2.2.2.1 rfl⟩, h2.2.2.2.2.2.1 rfl, by decide, by decide⟩

/-! ## Length and white space of the sanitized text -/

theorem sanitizeString_eq_take (s : JSString) : sanitizeString s = (stripped s).take 2000 := rfl

theorem sanitizeInput_length_le (input : JsVal) : (sanitizeInput input).length ≤ 2000 := by
  cases input with
  | str s => exact List.length_take_le 2000 _
  | _ => simp [sanitizeInput]

theorem dropWhile_head (p : Nat → Bool) (s : JSString) (c : Nat)
    (h : (s.dropWhile p).head? = some c) : p c = false := by
  induction s with
  | nil => simp at h
  | cons a t ih =>
    by_cases ha : p a = true
    · rw [List.dropWhile_cons_of_pos ha] at h
      exact ih h
    · rw [List.dropWhile_cons_of_neg ha] at h
      simp only [List.head?_cons, Option.some.injEq] at h
      subst h
      simpa using ha

theorem dropWhile_of_head (p : Nat → Bool) (s : JSString)
    (h : ∀ c, s.head? = some c → p c = false) : s.dropWhile p = s := by
  cases s with
  | nil => rfl
  | cons a t =>
    have ha : p a = false := h a rfl
    rw [List.dropWhile_cons_of_neg (by simp [ha])]

theorem trim_last (s : JSString) (c : Nat) (h : (trim s).getLast? = some c) :
    isJsSpace c = false := by
  unfold trim at h
  rw [List.getLast?_reverse] at h
  exact dropWhile_head _ _ _ h

theorem trim_head (s : JSString) (c : Nat) (h : (trim s).head? = some c) :
    isJsSpace c = false := by
  unfold trim at h
  rw [List.head?_reverse] at h
  have hsuf : ((s.dropWhile isJsSpace).reverse.dropWhile isJsSpace) <:+
      (s.dropWhile isJsSpace).reverse := List.dropWhile_suffix _
  obtain ⟨pre, hpre⟩ := hsuf
  have hl : ((s.dropWhile isJsSpace).reverse).getLast? = some c := by
    rw [← hpre]
    cases hd : (s.dropWhile isJsSpace).reverse.dropWhile isJsSpace with
    | nil => rw [hd] at h; simp at h
    | cons a t =>
      rw [hd] at h
      rw [List.getLast?_append_of_ne_nil _ (by simp)]
      exact h
  rw [List.getLast?_reverse] at hl
  exact dropWhile_head _ _ _ hl

theorem trim_of_ends (s : JSString) (h1 : ∀ c, s.head? = some c → isJsSpace c = false)
    (h2 : ∀ c, s.getLast? = some c → isJsSpace c = false) : trim s = s := by
  unfold trim
  rw [dropWhile_of_head _ s h1, dropWhile_of_head _ s.reverse, List.reverse_reverse]
  intro c hc
  rw [List.head?_reverse] at hc
  exact h2 c hc

/-- C14: `sanitizeInput` returns at most 2000 code units for every input value, and
the empty string for every input that is not a string. -/
theorem sanitizeInput_bounded (input : JsVal) :
    (sanitizeInput input).length ≤ 2000 ∧
    ((∀ s, input ≠ .str s) → sanitizeInput input = []) := by
  refine ⟨sanitizeInput_length_le input, ?_⟩
  intro h
  cases input with
  | str s => exact absurd rfl (h s)
  | _ => rfl

/-- Witness of `sanitizeInput_bounded` at the number 5. -/
theorem sanitizeInput_bounded_witness : sanitizeInput (.num 5) = [] :=
  (sanitizeInput_bounded (.num 5)).2 (fun s h => by cases h)

/-- C13 (amended): for every input the result of `sanitizeInput` does not start
with a white-space code unit, and it does not end with one when the text was not
cut, that is when the text before `.substring(0, 2000)` has at most 2000 code
units; in particular when the result is shorter than 2000. -/
theorem sanitizeInput_trimmed (input : JsVal) :
    (∀ c, (sanitizeInput input).head? = some c → isJsSpace c = false) ∧
    (∀ s, input = .str s → (stripped s).length ≤ 2000 →
      ∀ c, (sanitizeInput input).getLast? = some c → isJsSpace c = false) ∧
    ((sanitizeInput input).length < 2000 →
      ∀ c, (sanitizeInput input).getLast? = some c → isJsSpace c = false) := by
  cases input with
  | str s =>
    have hcut : (stripped s).length ≤ 2000 → sanitizeInput (.str s) = stripped s :=
      fun h => List.take_of_length_le h
    refine ⟨?_, ?_, ?_⟩
    · intro c hc
      have : (sanitizeInput (.str s)).head? = (stripped s).head? := by
        show ((stripped s).take 2000).head? = _
        cases stripped s <;> rfl
      rw [this] at hc
      exact trim_head _ c hc
    · intro s1 hs1 hlen c hc
      cases hs1
      rw [hcut hlen] at hc
      exact trim_last _ c hc
    · intro hlen c hc
      have hl : (stripped s).length ≤ 2000 := by
        have : (sanitizeInput (.str s)).length = min 2000 (stripped s).length :=
          List.length_take 2000 _
        omega
      rw [hcut hl] at hc
      exact trim_last _ c hc
  | _ =>
    refine ⟨?_, ?_, ?_⟩ <;> intros <;> simp_all [sanitizeInput]

/-- Witness of `sanitizeInput_trimmed` at the input `  hi  `, whose result is
`hi`. -/
theorem sanitizeInput_trimmed_witness :
    sanitizeInput (.str (utf16 "  hi  ")) = utf16 "hi" ∧ isJsSpace 104 = false ∧
    isJsSpace 105 = false :=
  have h := sanitizeInput_trimmed (.str (utf16 "  hi  "))
  ⟨by decide, h.1 104 (by decide), h.2.2 (by decide) 105 (by decide)⟩

/-! ## What a match consumes -/

/-- A successful quantifier loop has consumed a prefix of code units that satisfy
`P`, provided one iteration does. -/
theorem repLoop_consumed (P : Nat → Prop)
    (step : Option Nat → JSString → Cont → Option JSString)
    (hstep : ∀ prev s k x, step prev s k = some x →
      ∃ pre p s1, s = pre ++ s1 ∧ (∀ c ∈ pre, P c) ∧ k p s1 = some x) :
    ∀ (fuel : Nat) (max prev s k x), repLoop step fuel max prev s k = some x →
      ∃ pre p s1, s = pre ++ s1 ∧ (∀ c ∈ pre, P c) ∧ k p s1 = some x := by
  intro fuel
  induction fuel with
  | zero =>
    intro max prev s k x h
    exact ⟨[], prev, s, rfl, by simp, h⟩
  | succ n ih =>
    intro max prev s k x h
    rw [repLoop] at h
    split at h
    · exact ⟨[], prev, s, rfl, by simp, h⟩
    · split at h
      · rename_i r hr
        obtain ⟨pre1, p1, s1, hs1, hp1, hk⟩ := hstep _ _ _ _ hr
        split at hk
        · obtain ⟨pre2, p2, s2, hs2, hp2, hk2⟩ := ih _ _ _ _ _ hk
          cases h
          refine ⟨pre1 ++ pre2, p2, s2, ?_, ?_, hk2⟩
          · rw [hs1, hs2, List.append_assoc]
          · intro c hc
            rcases List.mem_append.mp hc with h1 | h1
            · exact hp1 c h1
            · exact hp2 c h1
        · cases hk
      · exact ⟨[], prev, s, rfl, by simp, h⟩

/-- A successful match has consumed a prefix of code units that satisfy `P`, when
every test of the pattern implies `P`. -/
theorem Re.m_consumed (P : Nat → Prop) (r : Re) (hr : r.Within P) :
    ∀ (prev : Option Nat) (s : JSString) (k : Cont) (x : JSString), r.m prev s k = some x →
      ∃ pre p s1, s = pre ++ s1 ∧ (∀ c ∈ pre, P c) ∧ k p s1 = some x := by
  induction r with
  | chr p =>
    intro prev s k x h
    unfold Re.m at h
    split at h
    · rename_i c t
      split at h
      · rename_i hpc
        refine ⟨[c], some c, t, rfl, ?_, h⟩
        intro d hd
        rw [List.mem_singleton.mp hd]
        exact hr c hpc
      · cases h
    · cases h
  | seq a b iha ihb =>
    intro prev s k x h
    unfold Re.m at h
    obtain ⟨pre1, p1, s1, hs1, hp1, h1⟩ := iha hr.1 _ _ _ _ h
    obtain ⟨pre2, p2, s2, hs2, hp2, h2⟩ := ihb hr.2 _ _ _ _ h1
    refine ⟨pre1 ++ pre2, p2, s2, ?_, ?_, h2⟩
    · rw [hs1, hs2, List.append_assoc]
    · intro c hc
      rcases List.mem_append.mp hc with h3 | h3
      · exact hp1 c h3
      · exact hp2 c h3
  | rep r max ih =>
    intro prev s k x h
    unfold Re.m at h
    exact repLoop_consumed P r.m (ih hr) _ _ _ _ _ _ h
  | notAhead r _ =>
    intro prev s k x h
    unfold Re.m at h
    split at h
    · cases h
    · exact ⟨[], prev, s, rfl, by simp, h⟩
  | wordBoundary =>
    intro prev s k x h
    unfold Re.m at h
    split at h
    · exact ⟨[], prev, s, rfl, by simp, h⟩
    · cases h
  | bol =>
    intro prev s k x h
    unfold Re.m at h
    split at h
    · exact ⟨[], prev, s, rfl, by simp, h⟩
    · cases h
  | eol =>
    intro prev s k x h
    unfold Re.m at h
    split at h
    · exact ⟨[], prev, s, rfl, by simp, h⟩
    · cases h

/-- A pattern that ends with `$` matches the whole rest of the input. -/
theorem Re.m_whole (P : Nat → Prop) (r : Re) (he : r.EndsAtEol) (hr : r.Within P) :
    ∀ (prev : Option Nat) (s : JSString) (k : Cont) (x : JSString), r.m prev s k = some x →
      (∀ c ∈ s, P c) ∧ ∃ p, k p [] = some x := by
  induction r with
  | seq a b _ ihb =>
    intro prev s k x h
    unfold Re.m at h
    obtain ⟨pre1, p1, s1, hs1, hp1, h1⟩ := Re.m_consumed P a hr.1 _ _ _ _ h
    obtain ⟨hall, hk⟩ := ihb he hr.2 _ _ _ _ h1
    refine ⟨?_, hk⟩
    intro c hc
    rw [hs1] at hc
    rcases List.mem_append.mp hc with h3 | h3
    · exact hp1 c h3
    · exact hall c h3
  | eol =>
    intro prev s k x h
    unfold Re.m at h
    split at h
    · rename_i hs
      have : s = [] := by simpa using hs
      subst this
      exact ⟨by simp, prev, h⟩
    · cases h
  | chr p => exact absurd he (by simp [Re.EndsAtEol])
  | rep r max _ => exact absurd he (by simp [Re.EndsAtEol])
  | notAhead r _ => exact absurd he (by simp [Re.EndsAtEol])
  | wordBoundary => exact absurd he (by simp [Re.EndsAtEol])
  | bol => exact absurd he (by simp [Re.EndsAtEol])

/-- A literal under the `i` flag does not match an input in which one of its
characters does not occur in either case. -/
theorem litI_none_of_mem (l : JSString) (k : Re) (a : Nat) (ha : a ∈ l) :
    ∀ (prev : Option Nat) (s : JSString) (K : Cont), (∀ c ∈ s, eqIgnoreCase a c = false) →
      (Re.litI l k).m prev s K = none := by
  induction l with
  | nil => simp at ha
  | cons c0 t ih =>
    intro prev s K hs
    unfold Re.litI Re.m
    rcases List.mem_cons.mp ha with h | h
    · subst h
      unfold Re.m
      cases s with
      | nil => rfl
      | cons c t1 => simp [hs c (by simp)]
    · apply Re.m_none
      intro p s1 hs1
      exact ih h p s1 K (fun c hc => hs c (hs1.subset hc))

theorem matchAt_eq_none (r : Re) (prev : Option Nat) (s : JSString) :
    r.matchAt prev s = none ↔ r.m prev s accept = none := by
  unfold Re.matchAt
  cases r.m prev s accept <;> simp

/-- Nothing is removed when the pattern matches at no position. -/
theorem replaceGo_id (r : Re) (s : JSString) :
    (∀ prev suf, suf <:+ s → r.m prev suf accept = none) →
      ∀ prev, replaceGo r prev 0 s = s := by
  induction s with
  | nil => intro _ prev; rfl
  | cons c t ih =>
    intro h prev
    rw [replaceGo, (matchAt_eq_none r prev (c :: t)).mpr (h prev _ (List.suffix_refl _))]
    simp only
    rw [ih (fun p suf hsuf => h p suf (hsuf.trans (List.suffix_cons c t)))]

/-- Removing the matches of a literal changes nothing when one of its characters
does not occur in the input. -/
theorem replaceAll_litI_id (l : JSString) (k : Re) (a : Nat) (ha : a ∈ l) (s : JSString)
    (hs : ∀ c ∈ s, eqIgnoreCase a c = false) : replaceAll (Re.litI l k) s = s :=
  replaceGo_id _ s (fun prev suf hsuf =>
    litI_none_of_mem l k a ha prev suf accept (fun c hc => hs c (hsuf.subset hc))) none

/-- When the pattern has no match in the input, `replace` returns the input. -/
theorem replaceAll_of_test_false (r : Re) (s : JSString) (h : r.test s = false) :
    replaceAll r s = s := by
  have key : ∀ (s : JSString) (prev : Option Nat), testGo r prev s = false →
      replaceGo r prev 0 s = s := by
    intro s
    induction s with
    | nil => intro prev _; rfl
    | cons c t ih =>
      intro prev ht
      rw [testGo, Bool.or_eq_false_iff] at ht
      have hm : r.m prev (c :: t) accept = none := by
        cases hx : r.m prev (c :: t) accept with
        | none => rfl
        | some x => rw [hx] at ht; simp at ht
      rw [replaceGo, (matchAt_eq_none r prev (c :: t)).mpr hm]
      simp only
      rw [ih (some c) ht.2]
  exact key s none h

/-- A code unit that the pattern cannot consume survives `replace`. -/
theorem replaceGo_keeps (r : Re) (c0 : Nat) (hr : r.Within (fun c => c ≠ c0)) (s : JSString) :
    ∀ (prev : Option Nat) (skip : Nat), (∀ c ∈ s.take skip, c ≠ c0) → c0 ∈ s →
      c0 ∈ replaceGo r prev skip s := by
  induction s with
  | nil => intro prev skip _ h; simp at h
  | cons c t ih =>
    intro prev skip hskip hmem
    cases skip with
    | succ n =>
      rw [replaceGo]
      have hc : c ≠ c0 := hskip c (by simp)
      have ht : c0 ∈ t := by
        rcases List.mem_cons.mp hmem with h | h
        · exact absurd h.symm hc
        · exact h
      exact ih (some c) n (fun d hd => hskip d (by simp [List.take_succ_cons, hd])) ht
    | zero =>
      rw [replaceGo]
      split
      · rename_i n hm
        unfold Re.matchAt at hm
        cases hx : r.m prev (c :: t) accept with
        | none => rw [hx] at hm; simp at hm
        | some rest =>
          rw [hx] at hm
          simp only [Option.map_some', Option.some.injEq] at hm
          obtain ⟨pre, p, s1, hs1, hp, hk⟩ := Re.m_consumed _ r hr _ _ _ _ hx
          simp only [accept, Option.some.injEq] at hk
          subst hk
          have hlen : pre.length = n + 1 := by
            have := congrArg List.length hs1
            simp only [List.length_append] at this
            omega
          cases pre with
          | nil => simp at hlen
          | cons a pre1 =>
            simp only [List.cons_append, List.cons.injEq] at hs1
            obtain ⟨hca, ht⟩ := hs1
            have hc : c ≠ c0 := by rw [hca]; exact hp a (by simp)
            have htm : c0 ∈ t := by
              rcases List.mem_cons.mp hmem with h | h
              · exact absurd h.symm hc
              · exact h
            apply ih (some c) n _ htm
            intro d hd
            have hn : pre1.length = n := by simpa using hlen
            rw [ht, List.take_append_of_le_length (by omega), ← hn, List.take_length] at hd
            exact hp d (by simp [hd])
      · rcases List.mem_cons.mp hmem with h | h
        · rw [h]; simp
        · exact List.mem_cons_of_mem _ (ih (some c) 0 (by simp) h)

/-! ## Plain text -/

theorem replaceAll_chr_id (p : Nat → Bool) (s : JSString) (h : ∀ c ∈ s, p c = false) :
    replaceAll (.chr p) s = s := by
  apply replaceGo_id
  intro prev suf hsuf
  unfold Re.m
  cases suf with
  | nil => rfl
  | cons c t => simp [h c (hsuf.subset (by simp))]

/-- The four replacements leave alone a text in which `<`, `>`, `:` and the letter
`o` do not occur. -/
theorem replacements_id (s : JSString)
    (h : ∀ c ∈ s, c ≠ 60 ∧ c ≠ 62 ∧ c ≠ 58 ∧ c ≠ 111 ∧ c ≠ 79) :
    replaceAll reOnHandler (replaceAll reJavascript
      (replaceAll reAngle (replaceAll reScript s))) = s := by
  have e1 : replaceAll reScript s = s := by
    unfold reScript
    apply replaceAll_litI_id _ _ 60 (by decide)
    intro c hc
    have := (h c hc).1
    simp only [eqIgnoreCase, asciiLower, isUpper]
    by_cases h1 : 65 ≤ c <;> by_cases h2 : c ≤ 90 <;> simp [h1, h2] <;> omega
  have e2 : replaceAll reAngle s = s := by
    unfold reAngle
    apply replaceAll_chr_id
    intro c hc
    simp [(h c hc).1, (h c hc).2.1]
  have e3 : replaceAll reJavascript s = s := by
    unfold reJavascript
    apply replaceAll_litI_id _ _ 58 (by decide)
    intro c hc
    have := (h c hc).2.2.1
    simp only [eqIgnoreCase, asciiLower, isUpper]
    by_cases h1 : 65 ≤ c <;> by_cases h2 : c ≤ 90 <;> simp [h1, h2] <;> omega
  have e4 : replaceAll reOnHandler s = s := by
    unfold reOnHandler
    apply replaceAll_litI_id _ _ 111 (by decide)
    intro c hc
    have h4 := (h c hc).2.2.2.1
    have h5 := (h c hc).2.2.2.2
    simp only [eqIgnoreCase, asciiLower, isUpper]
    by_cases h1 : 65 ≤ c <;> by_cases h2 : c ≤ 90 <;> simp [h1, h2] <;> omega
  rw [e1, e2, e3, e4]

theorem stripped_longTail : stripped longTail = longTail := by
  have hc : ∀ c ∈ longTail, c = 97 ∨ c = 32 := by
    intro c hc
    simp only [longTail, List.mem_append, List.mem_replicate, List.mem_cons,
      List.mem_singleton, List.not_mem_nil, or_false] at hc
    omega
  unfold stripped
  rw [replacements_id longTail (fun c h => by have := hc c h; omega)]
  apply trim_of_ends
  · intro c h
    have e : longTail = 97 :: (List.replicate 1998 97 ++ [32, 97]) := rfl
    rw [e, List.head?_cons] at h
    cases h
    rfl
  · intro c h
    have e : longTail = (List.replicate 1999 97 ++ [32]) ++ [97] := by
      unfold longTail
      rw [List.append_assoc]
      rfl
    rw [e, List.getLast?_concat] at h
    cases h
    rfl

/-- C13 as stated fails: for the input of 1999 letters `a`, a blank and one more
`a`, the result is the 1999 letters followed by the blank, so it ends with a
white-space code unit. -/
theorem sanitizeInput_trailing_blank :
    sanitizeInput (.str longTail) = List.replicate 1999 97 ++ [32] ∧
    (sanitizeInput (.str longTail)).getLast? = some 32 ∧ isJsSpace 32 = true := by
  have h : sanitizeInput (.str longTail) = List.replicate 1999 97 ++ [32] := by
    show (stripped longTail).take 2000 = _
    rw [stripped_longTail, longTail]
    have hl : (List.replicate 1999 97 : JSString).length = 1999 := List.length_replicate _ _
    rw [List.take_append_eq_append_take, hl, List.take_of_length_le (by omega)]
    rfl
  refine ⟨h, ?_, rfl⟩
  rw [h, List.getLast?_concat]

/-! ## Valid email addresses -/

theorem isValidEmail_str (s : JSString) :
    isValidEmail (.str s) = .ok (emailRegex.test s && decide (s.length ≤ 254)) :=
  isValidEmail_of_toStr (.str s) s rfl

/-- A pattern that starts with `^` has no match after the first position. -/
theorem testGo_bol (r : Re) (t : JSString) :
    ∀ c, testGo (.seq .bol r) (some c) t = false := by
  induction t with
  | nil => intro c; simp [testGo, Re.m]
  | cons a t ih => intro c; simp [testGo, Re.m, ih a]

theorem emailRegex_test_iff (s : JSString) :
    emailRegex.test s = true ↔ ∃ x, emailRegex.m none s accept = some x := by
  have hb : ∀ c t, testGo emailRegex (some c) t = false := fun c t => testGo_bol _ t c
  unfold Re.test
  cases s with
  | nil => simp [testGo, Option.isSome_iff_exists]
  | cons c t => simp [testGo, hb, Option.isSome_iff_exists]

/-- The facts about a code unit that `isValidEmail` lets through. -/
theorem emailChar_facts (c : Nat) (h : isLocalChar c = true ∨ c = 64) :
    c < 128 ∧ isJsSpace c = false ∧ c ≠ 60 ∧ c ≠ 62 ∧ c ≠ 58 := by
  have hlt : c < 128 := by
    rcases h with h | h
    · simp only [isLocalChar, isAlnum, isLower, isUpper, isDigit, Bool.or_eq_true,
        Bool.and_eq_true, decide_eq_true_eq, List.contains_eq_any_beq, List.any_cons,
        List.any_nil, beq_iff_eq, Bool.or_false] at h
      omega
    · omega
  have key : ∀ c < 128, (isLocalChar c = true ∨ c = 64) →
      isJsSpace c = false ∧ c ≠ 60 ∧ c ≠ 62 ∧ c ≠ 58 := by decide
  exact ⟨hlt, key c hlt h⟩

theorem emailRegex_within : emailRegex.Within (fun c => isLocalChar c = true ∨ c = 64) := by
  have h1 : ∀ c, isAlnum c = true → isLocalChar c = true ∨ c = 64 := by
    intro c h; left; simp [isLocalChar, h]
  have h2 : ∀ c, isLabelChar c = true → isLocalChar c = true ∨ c = 64 := by
    intro c h
    left
    simp only [isLabelChar, Bool.or_eq_true, beq_iff_eq] at h
    rcases h with h | h
    · simp [isLocalChar, h]
    · subst h; decide
  have h3 : ∀ c, (c == 46) = true → isLocalChar c = true ∨ c = 64 := by
    intro c h
    left
    simp only [beq_iff_eq] at h
    subst h; decide
  have h4 : ∀ c, (c == 64) = true → isLocalChar c = true ∨ c = 64 := by
    intro c h; right; simpa using h
  have hl : reLabel.Within (fun c => isLocalChar c = true ∨ c = 64) :=
    ⟨h1, h2, h1⟩
  exact ⟨trivial, ⟨fun c h => Or.inl h, fun c h => Or.inl h⟩, h4, hl, ⟨h3, hl⟩, trivial⟩

theorem emailRegex_endsAtEol : emailRegex.EndsAtEol := by
  unfold emailRegex
  simp [Re.EndsAtEol]

theorem m_bol_seq_seq (a b : Re) (s : JSString) (k : Cont) :
    (Re.seq .bol (.seq a b)).m none s k = a.m none s (fun p1 s1 => b.m p1 s1 k) := rfl

theorem m_chr_seq_some (p : Nat → Bool) (b : Re) (prev : Option Nat) (s : JSString) (k : Cont)
    (x : JSString) (h : (Re.seq (.chr p) b).m prev s k = some x) :
    ∃ c t, s = c :: t ∧ p c = true := by
  cases s with
  | nil => simp [Re.m] at h
  | cons c t =>
    cases hp : p c with
    | true => exact ⟨c, t, rfl, hp⟩
    | false => simp [Re.m, hp] at h

/-- Every code unit of a string that matches the email pattern is in the class of
the local part or is `@`, and `@` occurs in it. -/
theorem emailRegex_chars (s : JSString) (h : emailRegex.test s = true) :
    (∀ c ∈ s, isLocalChar c = true ∨ c = 64) ∧ 64 ∈ s := by
  obtain ⟨x, hx⟩ := (emailRegex_test_iff s).mp h
  refine ⟨(Re.m_whole _ emailRegex emailRegex_endsAtEol emailRegex_within _ _ _ _ hx).1, ?_⟩
  unfold emailRegex at hx
  rw [m_bol_seq_seq] at hx
  obtain ⟨p, s1, hs1, h1⟩ := Re.m_some _ _ _ _ _ hx
  obtain ⟨c, t, hct, hc⟩ := m_chr_seq_some _ _ _ _ _ _ h1
  have hc64 : c = 64 := by simpa using hc
  subst hc64 hct
  exact hs1.subset (by simp)

/-! ## Matching a renamed input -/

theorem repLoop_map (f : Nat → Nat)
    (step : Option Nat → JSString → Cont → Option JSString)
    (hstep : ∀ prev s (k k1 : Cont),
      (∀ p s1, k1 (p.map f) (s1.map f) = (k p s1).map (List.map f)) →
      step (prev.map f) (s.map f) k1 = (step prev s k).map (List.map f)) :
    ∀ (fuel : Nat) (max prev s) (k k1 : Cont),
      (∀ p s1, k1 (p.map f) (s1.map f) = (k p s1).map (List.map f)) →
      repLoop step fuel max (prev.map f) (s.map f) k1 =
        (repLoop step fuel max prev s k).map (List.map f) := by
  intro fuel
  induction fuel with
  | zero =>
    intro max prev s k k1 h
    exact h prev s
  | succ n ih =>
    intro max prev s k k1 h
    rw [repLoop, repLoop]
    by_cases hmax : max = some 0
    · rw [if_pos hmax, if_pos hmax]
      exact h prev s
    · rw [if_neg hmax, if_neg hmax]
      have hs := hstep prev s
        (fun prev1 s1 =>
          if s1.length < s.length then repLoop step n (max.map (· - 1)) prev1 s1 k else none)
        (fun prev1 s1 =>
          if s1.length < (s.map f).length then repLoop step n (max.map (· - 1)) prev1 s1 k1
          else none)
        (by
          intro p s1
          simp only [List.length_map]
          by_cases hlt : s1.length < s.length
          · simp only [hlt, if_true]
            exact ih _ _ _ _ _ h
          · simp only [hlt, if_false, Option.map_none'])
      rw [hs]
      cases step prev s (fun prev1 s1 =>
          if s1.length < s.length then repLoop step n (max.map (· - 1)) prev1 s1 k
          else none) with
      | none => exact h prev s
      | some r => rfl

/-- When the tests of the pattern do not tell `c` from `f c`, matching the input
renamed by `f` goes the same way as matching the input. -/
theorem Re.m_map (f : Nat → Nat) (r : Re) (hr : r.Respects f) :
    ∀ (prev : Option Nat) (s : JSString) (k k1 : Cont),
      (∀ p s1, k1 (p.map f) (s1.map f) = (k p s1).map (List.map f)) →
      r.m (prev.map f) (s.map f) k1 = (r.m prev s k).map (List.map f) := by
  induction r with
  | chr p =>
    intro prev s k k1 h
    unfold Re.m
    cases s with
    | nil => rfl
    | cons c t =>
      simp only [List.map_cons, hr c]
      by_cases hp : p c = true
      · rw [if_pos hp, if_pos hp]
        exact h (some c) t
      · rw [if_neg hp, if_neg hp]
        rfl
  | seq a b iha ihb =>
    intro prev s k k1 h
    unfold Re.m
    exact iha hr.1 _ _ _ _ (fun p s1 => ihb hr.2 p s1 k k1 h)
  | rep r max ih =>
    intro prev s k k1 h
    unfold Re.m
    rw [List.length_map]
    exact repLoop_map f r.m (ih hr) _ _ _ _ _ _ h
  | notAhead r ih =>
    intro prev s k k1 h
    unfold Re.m
    rw [ih hr prev s accept accept (fun p s1 => rfl)]
    cases r.m prev s accept with
    | none => exact h prev s
    | some x => rfl
  | wordBoundary =>
    intro prev s k k1 h
    unfold Re.m
    have h1 : isWordAt (prev.map f) = isWordAt prev := by
      cases prev with
      | none => rfl
      | some c => exact hr c
    have h2 : isWordAt (s.map f).head? = isWordAt s.head? := by
      cases s with
      | nil => rfl
      | cons c t => exact hr c
    rw [h1, h2]
    split
    · exact h prev s
    · rfl
  | bol =>
    intro prev s k k1 h
    unfold Re.m
    have h1 : (prev.map f).isNone = prev.isNone := by cases prev <;> rfl
    rw [h1]
    split
    · exact h prev s
    · rfl
  | eol =>
    intro prev s k k1 h
    unfold Re.m
    have h1 : (s.map f).isEmpty = s.isEmpty := by cases s <;> rfl
    rw [h1]
    split
    · exact h prev s
    · rfl

theorem asciiLower_respects (p : Nat → Bool) (h : ∀ c < 128, p (asciiLower c) = p c) :
    ∀ c, p (asciiLower c) = p c := by
  intro c
  by_cases hc : c < 128
  · exact h c hc
  · have : asciiLower c = c := by
      simp only [asciiLower, isUpper, Bool.and_eq_true, decide_eq_true_eq]
      rw [if_neg (by omega)]
    rw [this]

theorem emailRegex_respects : emailRegex.Respects asciiLower := by
  have h1 := asciiLower_respects isLocalChar (by decide)
  have h2 := asciiLower_respects isAlnum (by decide)
  have h3 := asciiLower_respects isLabelChar (by decide)
  have h4 := asciiLower_respects (fun c => c == 64) (by decide)
  have h5 := asciiLower_respects (fun c => c == 46) (by decide)
  have hl : reLabel.Respects asciiLower := ⟨h2, h3, h2⟩
  exact ⟨trivial, ⟨h1, h1⟩, h4, hl, ⟨h5, hl⟩, trivial⟩

/-- Lower-casing the ASCII letters of a string that matches the email pattern
gives a string that matches it. -/
theorem emailRegex_test_lower (s : JSString) (h : emailRegex.test s = true) :
    emailRegex.test (s.map asciiLower) = true := by
  obtain ⟨x, hx⟩ := (emailRegex_test_iff s).mp h
  apply (emailRegex_test_iff _).mpr
  have hm := Re.m_map asciiLower emailRegex emailRegex_respects none s accept accept
    (fun p s1 => rfl)
  rw [hx] at hm
  exact ⟨_, hm⟩

/-- On a valid email address only the removal of event-handler patterns can change
the text: the other replacements find nothing, there is no white space to trim and
the length is below the limit. -/
theorem sanitizeString_valid_email (e : JSString) (hv : isValidEmail (.str e) = .ok true) :
    emailRegex.test e = true ∧ e.length ≤ 254 ∧
    sanitizeString e = replaceAll reOnHandler e := by
  rw [isValidEmail_str] at hv
  have hv2 : (emailRegex.test e && decide (e.length ≤ 254)) = true := by
    cases hb : (emailRegex.test e && decide (e.length ≤ 254)) with
    | true => rfl
    | false => rw [hb] at hv; cases hv
  rw [Bool.and_eq_true, decide_eq_true_eq] at hv2
  obtain ⟨ht, hlen⟩ := hv2
  have hch := (emailRegex_chars e ht).1
  have hf := fun c hc => emailChar_facts c (hch c hc)
  refine ⟨ht, hlen, ?_⟩
  have e1 : replaceAll reScript e = e := by
    unfold reScript
    apply replaceAll_litI_id _ _ 60 (by decide)
    intro c hc
    have := (hf c hc).2.2.1
    simp only [eqIgnoreCase, asciiLower, isUpper]
    by_cases h1 : 65 ≤ c <;> by_cases h2 : c ≤ 90 <;> simp [h1, h2] <;> omega
  have e2 : replaceAll reAngle e = e := by
    unfold reAngle
    apply replaceAll_chr_id
    intro c hc
    simp [(hf c hc).2.2.1, (hf c hc).2.2.2.1]
  have e3 : replaceAll reJavascript e = e := by
    unfold reJavascript
    apply replaceAll_litI_id _ _ 58 (by decide)
    intro c hc
    have := (hf c hc).2.2.2.2
    simp only [eqIgnoreCase, asciiLower, isUpper]
    by_cases h1 : 65 ≤ c <;> by_cases h2 : c ≤ 90 <;> simp [h1, h2] <;> omega
  have hsub : (replaceAll reOnHandler e).Sublist e := replaceAll_sublist _ _
  have hsp : ∀ c ∈ replaceAll reOnHandler e, isJsSpace c = false :=
    fun c hc => (hf c (hsub.subset hc)).2.1
  unfold sanitizeString
  rw [e1, e2, e3, trim_of_ends _ (fun c hc => hsp c (List.mem_of_mem_head? hc))
    (fun c hc => hsp c (List.mem_of_getLast?_eq_some hc))]
  exact List.take_of_length_le (by have := hsub.length_le; omega)

theorem reOnHandler_within : reOnHandler.Within (fun c => c ≠ 64) := by
  have h0 : utf16 "on" = [111, 110] := by decide
  unfold reOnHandler
  rw [h0]
  refine ⟨?_, ?_, ⟨?_, ?_⟩, ?_, ?_⟩ <;> intro c hc hc64 <;> subst hc64 <;> revert hc <;> decide

theorem toLowerCase_ascii (w : World) (s : JSString) (h : ∀ c ∈ s, c < 128) :
    toLowerCase w s = s.map asciiLower := by
  unfold toLowerCase
  rw [if_pos]
  rw [List.all_eq_true]
  intro c hc
  simpa using h c hc

theorem stripped_letters (n : Nat) : stripped (List.replicate n 97) = List.replicate n 97 := by
  have hc : ∀ c ∈ List.replicate n 97, c = 97 := fun c hc => (List.mem_replicate.mp hc).2
  unfold stripped
  rw [replacements_id _ (fun c h => by have := hc c h; omega)]
  apply trim_of_ends
  · intro c h
    rw [hc c (List.mem_of_mem_head? h)]
    rfl
  · intro c h
    rw [hc c (List.mem_of_getLast?_eq_some h)]
    rfl

theorem sanitizeInput_letters (n : Nat) :
    sanitizeInput (.str (List.replicate n 97)) = List.replicate (min 2000 n) 97 := by
  show (stripped (List.replicate n 97)).take 2000 = _
  rw [stripped_letters, List.take_replicate]

theorem sanitizeInput_blanks (n : Nat) : sanitizeInput (.str (List.replicate n 32)) = [] := by
  have hc : ∀ c ∈ List.replicate n 32, c = 32 := fun c hc => (List.mem_replicate.mp hc).2
  show (stripped (List.replicate n 32)).take 2000 = []
  unfold stripped
  rw [replacements_id _ (fun c h => by have := hc c h; omega)]
  unfold trim
  have h0 : (List.replicate n 32).dropWhile isJsSpace = [] := by
    rw [List.dropWhile_eq_nil_iff]
    intro c h
    rw [hc c h]
    rfl
  rw [h0]
  rfl

theorem truthy_of_sanitized (v : JsVal) (h : sanitizeInput v ≠ []) : v.truthy = true := by
  cases v with
  | str s =>
    cases s with
    | nil => exact absurd (by decide) h
    | cons c t => rfl
  | _ => exact absurd rfl h

theorem truthy_of_valid (v : JsVal) (h : isValidEmail v = .ok true) : v.truthy = true := by
  cases v with
  | undefined =>
    have e : isValidEmail .undefined = .ok false := by rfl
    rw [e] at h; cases h
  | null =>
    have e : isValidEmail .null = .ok false := by rfl
    rw [e] at h; cases h
  | bool b =>
    cases b with
    | true => rfl
    | false =>
      have e : isValidEmail (.bool false) = .ok false := by rfl
      rw [e] at h; cases h
  | num n =>
    by_cases hn : n = 0
    · subst hn
      have e : isValidEmail (.num 0) = .ok false := by rfl
      rw [e] at h; cases h
    · simp [JsVal.truthy, hn]
  | str s =>
    cases s with
    | nil =>
      have e : isValidEmail (.str []) = .ok false := by rfl
      rw [e] at h; cases h
    | cons c t => rfl
  | arr xs => rfl
  | obj fields => rfl

/-! ## Accepted submissions -/

/-- C11: the bounds are inclusive.  A submission with a valid email, a sanitized
name of 2 to 100 code units, a sanitized message of 10 to 2000 code units and a
non-empty subject whose sanitized length is at most 200 passes every validation
rule, and when both sends succeed the response is 200 with `success: true` after
two `sendMail` calls. -/
theorem contact_accepts_inclusive_bounds (env : Env) (w : World) (b : Body)
    (hv : isValidEmail b.email = .ok true)
    (hn : 2 ≤ (sanitizeInput b.name).length ∧ (sanitizeInput b.name).length ≤ 100)
    (hm : 10 ≤ (sanitizeInput b.message).length ∧ (sanitizeInput b.message).length ≤ 2000)
    (hs : b.subject.truthy = true ∧ (sanitizeInput b.subject).length ≤ 200) :
    accepted b ∧
    (w.sendNotification = none → w.sendAutoReply = none →
      (contact env w b).response = successResponse ∧
      (contact env w b).response.status = 200 ∧
      (contact env w b).response.success = true ∧
      (contact env w b).sent.length = 2) := by
  have hname : b.name.truthy = true :=
    truthy_of_sanitized _ (fun h => by rw [h] at hn; simp at hn)
  have hmsg : b.message.truthy = true :=
    truthy_of_sanitized _ (fun h => by rw [h] at hm; simp at hm)
  have hacc : accepted b := by
    refine ⟨?_, hv, ?_, ?_, ?_⟩
    · simp [requiredPresent, hname, truthy_of_valid _ hv, hs.1, hmsg]
    · simp only [nameRuleFails, Bool.or_eq_false_iff, decide_eq_false_iff_not]
      omega
    · simp only [messageRuleFails, Bool.or_eq_false_iff, decide_eq_false_iff_not]
      omega
    · simp only [subjectRuleFails, decide_eq_false_iff_not]
      omega
  refine ⟨hacc, ?_⟩
  intro h1 h2
  rw [contact_of_accepted env w b hacc]
  simp [promiseAll, h1, h2, successResponse]

/-- Witness of `contact_accepts_inclusive_bounds` at the scenario of the
specification (name `Jo`, message `1234567890`), and at the submission with a name
of exactly 100, a message of exactly 2000 and a subject of exactly 200 code
units. -/
theorem contact_accepts_inclusive_bounds_witness :
    (accepted bodyJo ∧ (contact sampleEnv calmWorld bodyJo).response.status = 200) ∧
    (accepted bodyEdge ∧ (contact sampleEnv calmWorld bodyEdge).response.status = 200) :=
  have h := contact_accepts_inclusive_bounds sampleEnv calmWorld bodyJo (by rfl)
    (by decide) (by decide) (by decide)
  have hname : (sanitizeInput bodyEdge.name).length = 100 := by
    show (sanitizeInput (.str (List.replicate 100 97))).length = 100
    rw [sanitizeInput_letters, List.length_replicate]
    rfl
  have hmsg : (sanitizeInput bodyEdge.message).length = 2000 := by
    show (sanitizeInput (.str (List.replicate 2000 97))).length = 2000
    rw [sanitizeInput_letters, List.length_replicate]
    rfl
  have hsub : (sanitizeInput bodyEdge.subject).length = 200 := by
    show (sanitizeInput (.str (List.replicate 200 97))).length = 200
    rw [sanitizeInput_letters, List.length_replicate]
    rfl
  have h2 := contact_accepts_inclusive_bounds sampleEnv calmWorld bodyEdge (by rfl)
    (by rw [hname]; omega) (by rw [hmsg]; omega) ⟨by rfl, by rw [hsub]⟩
  ⟨⟨h.1, (h.2 rfl rfl).2.1⟩, ⟨h2.1, (h2.2 rfl rfl).2.1⟩⟩

/-- C12 (amended): for every accepted submission the sanitized name and the
sanitized message are non-empty, and the sanitized email is non-empty when the
submitted email is a string. -/
theorem accepted_fields_nonempty (w : World) (b : Body) (h : accepted b) :
    (sanitize w b).name ≠ [] ∧ (sanitize w b).message ≠ [] ∧
    (∀ e, b.email = .str e → (sanitize w b).email ≠ []) := by
  obtain ⟨_, hv, hn, hm, _⟩ := h
  refine ⟨?_, ?_, ?_⟩
  · intro h0
    have h1 : sanitizeInput b.name = [] := h0
    simp [nameRuleFails, h1] at hn
  · intro h0
    have h1 : sanitizeInput b.message = [] := h0
    simp [messageRuleFails, h1] at hm
  · intro e he
    rw [he] at hv
    obtain ⟨ht, _, hsan⟩ := sanitizeString_valid_email e hv
    obtain ⟨hch, hat⟩ := emailRegex_chars e ht
    have hkeep : 64 ∈ replaceAll reOnHandler e :=
      replaceGo_keeps reOnHandler 64 reOnHandler_within e none 0 (by simp) hat
    have hascii : ∀ c ∈ replaceAll reOnHandler e, c < 128 :=
      fun c hc => (emailChar_facts c (hch c ((replaceAll_sublist _ _).subset hc))).1
    show toLowerCase w (sanitizeInput b.email) ≠ []
    rw [he]
    show toLowerCase w (sanitizeString e) ≠ []
    rw [hsan, toLowerCase_ascii w _ hascii]
    intro h0
    rw [List.map_eq_nil_iff] at h0
    rw [h0] at hkeep
    simp at hkeep

/-- Witness of `accepted_fields_nonempty` at the scenario of the specification. -/
theorem accepted_fields_nonempty_witness :
    (sanitize calmWorld bodyJo).name ≠ [] ∧ (sanitize calmWorld bodyJo).email ≠ [] :=
  have h := accepted_fields_nonempty calmWorld bodyJo
    ⟨by decide, by rfl, by decide, by decide, by decide⟩
  ⟨h.1, h.2.2 _ rfl⟩

/-- The submission whose email is the array `["jo@example.com"]` is accepted, and its
sanitized email is empty: `test` takes the text of the array, `sanitizeInput` takes
a value that is not a string. -/
theorem accepted_array_email_empty :
    accepted bodyArrayEmail ∧ (sanitize calmWorld bodyArrayEmail).email = [] :=
  ⟨⟨by decide, by rfl, by decide, by decide, by decide⟩, by decide⟩

/-- C12 as stated fails: the submission with a subject of three blanks is accepted
(the response is 200 after two sends) and its sanitized subject is empty. -/
theorem accepted_subject_empty :
    accepted bodyBlankSubject ∧
    (sanitize calmWorld bodyBlankSubject).subject = [] ∧
    (contact sampleEnv calmWorld bodyBlankSubject).response.status = 200 ∧
    (contact sampleEnv calmWorld bodyBlankSubject).sent.length = 2 :=
  ⟨⟨by decide, by rfl, by decide, by decide, by decide⟩, by decide, by decide, by decide⟩

/-- C15 (amended): for every string `e` with `isValidEmail(e)` true in which the
event-handler pattern `on\w+\s*=` has no match, `sanitizeInput(e)` is `e`; the
auto-reply of a submission with this email is addressed to `e` with its ASCII
letters lower-cased, and that address satisfies `isValidEmail`. -/
theorem sanitize_keeps_valid_email (env : Env) (w : World) (b : Body) (e : JSString)
    (hb : b.email = .str e) (hv : isValidEmail (.str e) = .ok true)
    (hon : reOnHandler.test e = false) :
    sanitizeInput (.str e) = e ∧
    (autoReplyOptions env w (sanitize w b)).recipient = some (e.map asciiLower) ∧
    isValidEmail (.str (e.map asciiLower)) = .ok true := by
  obtain ⟨ht, hlen, hsan⟩ := sanitizeString_valid_email e hv
  have hid : sanitizeInput (.str e) = e := by
    show sanitizeString e = e
    rw [hsan, replaceAll_of_test_false _ _ hon]
  have hascii : ∀ c ∈ e, c < 128 :=
    fun c hc => (emailChar_facts c ((emailRegex_chars e ht).1 c hc)).1
  refine ⟨hid, ?_, ?_⟩
  · show some (toLowerCase w (sanitizeInput b.email)) = _
    rw [hb, hid, toLowerCase_ascii w e hascii]
  · rw [isValidEmail_str, emailRegex_test_lower e ht, List.length_map]
    simp [hlen]

/-- Witness of `sanitize_keeps_valid_email` at the scenario of the specification. -/
theorem sanitize_keeps_valid_email_witness :
    sanitizeInput (.str (utf16 "jo@example.com")) = utf16 "jo@example.com" ∧
    (autoReplyOptions sampleEnv calmWorld (sanitize calmWorld bodyJo)).recipient =
      some ((utf16 "jo@example.com").map asciiLower) :=
  have h := sanitize_keeps_valid_email sampleEnv calmWorld bodyJo (utf16 "jo@example.com")
    rfl (by rfl) (by decide)
  ⟨h.1, h.2.1⟩

/-- C15 as stated fails: `onx=y@b.com` satisfies `isValidEmail`, and sanitising it
gives `y@b.com`, which is also the address the auto-reply is sent to. -/
theorem sanitize_alters_valid_email :
    isValidEmail (.str (utf16 "onx=y@b.com")) = .ok true ∧
    sanitizeInput (.str (utf16 "onx=y@b.com")) = utf16 "y@b.com" ∧
    sanitizeInput (.str (utf16 "onx=y@b.com")) ≠ utf16 "onx=y@b.com" ∧
    (autoReplyOptions sampleEnv calmWorld (sanitize calmWorld bodyHandlerEmail)).recipient =
      some (utf16 "y@b.com") :=
  ⟨by rfl, by decide, by decide, by decide⟩

/-- C16 (amended): the sanitized message never has more than 2000 code units, so
for a submission with the required fields present, a valid email and a sanitized
name of 2 to 100 code units the handler answers `Message must be between 10 and
2000 characters` exactly when the sanitized message is shorter than 10; a message
whose text is still longer than 2000 after the replacements and `trim` is cut to
2000 and passes the message rule, and the submission is accepted when the subject
rule passes too. -/
theorem message_rule_upper_bound (env : Env) (w : World) (b : Body) :
    (sanitizeInput b.message).length ≤ 2000 ∧
    (requiredPresent b = true → isValidEmail b.email = .ok true → nameRuleFails b = false →
      ((contact env w b).response =
          badRequest "Message must be between 10 and 2000 characters" ↔
        (sanitizeInput b.message).length < 10)) ∧
    (∀ s, b.message = .str s → 2000 < (stripped s).length →
      (sanitizeInput b.message).length = 2000 ∧ messageRuleFails b = false ∧
      (requiredPresent b = true → isValidEmail b.email = .ok true →
        nameRuleFails b = false → subjectRuleFails b = false → accepted b)) := by
  have hle := sanitizeInput_length_le b.message
  refine ⟨hle, ?_, ?_⟩
  · intro hp hv hn
    rw [contact_of_present env w b hp, hv]
    simp only [hn, Bool.false_eq_true, if_false]
    by_cases hlt : (sanitizeInput b.message).length < 10
    · have hm : messageRuleFails b = true := by simp [messageRuleFails, hlt]
      simp [hm, hlt]
    · have hm : messageRuleFails b = false := by
        simp only [messageRuleFails, Bool.or_eq_false_iff, decide_eq_false_iff_not]
        omega
      have hne : badRequest "Subject must be less than 200 characters" ≠
          badRequest "Message must be between 10 and 2000 characters" := by decide
      simp only [hm, Bool.false_eq_true, if_false, hlt, iff_false]
      cases subjectRuleFails b with
      | true => simpa using hne
      | false =>
        cases promiseAll w <;> simp [catchResponse, successResponse, badRequest]
  · intro s hs hlong
    have hlen : (sanitizeInput b.message).length = 2000 := by
      rw [hs]
      show ((stripped s).take 2000).length = 2000
      rw [List.length_take]
      omega
    have hm : messageRuleFails b = false := by
      simp only [messageRuleFails, Bool.or_eq_false_iff, decide_eq_false_iff_not]
      omega
    exact ⟨hlen, hm, fun hp hv hn hsub => ⟨hp, hv, hn, hm, hsub⟩⟩

/-- Witness of `message_rule_upper_bound` at a submission whose message is 2001
letters `a`: the message is cut to 2000 and the submission is accepted. -/
theorem message_rule_upper_bound_witness :
    (sanitizeInput bodyLongMessage.message).length = 2000 ∧ accepted bodyLongMessage ∧
    (contact sampleEnv calmWorld bodyLongMessage).response ≠
      badRequest "Message must be between 10 and 2000 characters" := by
  have h := message_rule_upper_bound sampleEnv calmWorld bodyLongMessage
  have h3 := h.2.2 longText rfl (by
    unfold longText
    rw [stripped_letters, List.length_replicate]
    omega)
  refine ⟨h3.1, h3.2.2 (by rfl) (by rfl) (by decide) (by decide), ?_⟩
  intro hr
  have hlt := (h.2.1 (by rfl) (by rfl) (by decide)).mp hr
  rw [h3.1] at hlt
  omega

/-- C16 as stated fails: a message of 2001 blanks is longer than 2000 characters,
its sanitized text is empty, and the handler rejects the submission with the
message error. -/
theorem long_blank_message_rejected :
    longBlank.length = 2001 ∧ sanitizeInput bodyBlankMessage.message = [] ∧
    (contact sampleEnv calmWorld bodyBlankMessage).response =
      badRequest "Message must be between 10 and 2000 characters" := by
  have hs : sanitizeInput bodyBlankMessage.message = [] := sanitizeInput_blanks 2001
  have hm : messageRuleFails bodyBlankMessage = true := by
    simp [messageRuleFails, hs]
  refine ⟨List.length_replicate _ _, hs, ?_⟩
  rw [contact_of_present sampleEnv calmWorld bodyBlankMessage (by rfl)]
  have hv : isValidEmail bodyBlankMessage.email = .ok true := by rfl
  have hn : nameRuleFails bodyBlankMessage = false := by decide
  rw [hv]
  simp [hn, hm]

/-! ## The recipients -/

theorem isUpper_asciiLower (c : Nat) : isUpper (asciiLower c) = false := by
  by_cases h : isUpper c = true
  · have h2 := h
    simp only [isUpper, Bool.and_eq_true, decide_eq_true_eq] at h2
    have e : asciiLower c = c + 32 := by simp only [asciiLower, h, if_true]
    rw [e]
    simp only [isUpper, Bool.and_eq_false_iff, decide_eq_false_iff_not]
    omega
  · have e : asciiLower c = c := by
      unfold asciiLower
      rw [if_neg h]
    rw [e]
    simpa using h

/-- The sanitized email of a submission that passes `isValidEmail` has ASCII code
units only. -/
theorem sanitized_email_ascii (b : Body) (hv : isValidEmail b.email = .ok true) :
    ∀ c ∈ sanitizeInput b.email, c < 128 := by
  intro c hc
  cases he : b.email with
  | str e =>
    rw [he] at hv hc
    obtain ⟨ht, _, hsan⟩ := sanitizeString_valid_email e hv
    have hc2 : c ∈ replaceAll reOnHandler e := by
      have : sanitizeInput (.str e) = sanitizeString e := rfl
      rw [this, hsan] at hc
      exact hc
    exact (emailChar_facts c ((emailRegex_chars e ht).1 c
      ((replaceAll_sublist _ _).subset hc2))).1
  | _ => rw [he] at hc; simp [sanitizeInput] at hc

/-- C7: for every submission that passes all validation rules, exactly two
messages are passed to `sendMail`: first the notification, whose `to` is
`WORK_EMAIL` when that variable has a (non-empty) value and `EMAIL_USER` otherwise,
then the auto-reply, whose `to` is the sanitized submitted email with every
upper-case letter replaced by its lower-case letter, so that no upper-case letter
is left in it; the `from` of both is `EMAIL_USER`. -/
theorem contact_sends_two (env : Env) (w : World) (b : Body) (h : accepted b) :
    ∃ notification reply : MailOptions,
      (contact env w b).sent = [notification, reply] ∧
      (∀ a, env.WORK_EMAIL = some a → a ≠ [] → notification.recipient = some a) ∧
      (env.WORK_EMAIL = none ∨ env.WORK_EMAIL = some [] →
        notification.recipient = env.EMAIL_USER) ∧
      reply.recipient = some (toLowerCase w (sanitizeInput b.email)) ∧
      reply.recipient = some ((sanitizeInput b.email).map asciiLower) ∧
      (∀ r, reply.recipient = some r → r.length = (sanitizeInput b.email).length ∧
        ∀ c ∈ r, isUpper c = false) ∧
      notification.sender = env.EMAIL_USER ∧ reply.sender = env.EMAIL_USER := by
  have hlow : toLowerCase w (sanitizeInput b.email) =
      (sanitizeInput b.email).map asciiLower := by
    unfold toLowerCase
    rw [if_pos]
    rw [List.all_eq_true]
    intro c hc
    simpa using sanitized_email_ascii b h.2.1 c hc
  have hrec : (autoReplyOptions env w (sanitize w b)).recipient =
      some ((sanitizeInput b.email).map asciiLower) := by
    show some (toLowerCase w (sanitizeInput b.email)) = _
    rw [hlow]
  refine ⟨mailOptions env w (sanitize w b), autoReplyOptions env w (sanitize w b), ?_, ?_, ?_,
    rfl, hrec, ?_, rfl, rfl⟩
  · rw [contact_of_accepted env w b h]
    cases promiseAll w <;> rfl
  · intro a ha hne
    cases a with
    | nil => exact absurd rfl hne
    | cons c t => simp [mailOptions, envOr, ha]
  · rintro (h0 | h0) <;> simp [mailOptions, envOr, h0]
  · intro r hr
    rw [hrec] at hr
    cases hr
    refine ⟨List.length_map _ _, ?_⟩
    intro c hc
    obtain ⟨a, _, ha⟩ := List.mem_map.mp hc
    rw [← ha]
    exact isUpper_asciiLower a

/-- Witness of `contact_sends_two`: for the accepted submission with the email
`Jo@Example.COM` the notification goes to `WORK_EMAIL` and the auto-reply to
`jo@example.com`; for the scenario of the specification in an environment without
`WORK_EMAIL` the notification goes to `EMAIL_USER`. -/
theorem contact_sends_two_witness :
    (∃ notification reply : MailOptions,
      (contact sampleEnv calmWorld bodyUpper).sent = [notification, reply] ∧
      notification.recipient = some (utf16 "work@example.com") ∧
      reply.recipient = some (utf16 "jo@example.com")) ∧
    (∃ notification reply : MailOptions,
      (contact envNoWork calmWorld bodyJo).sent = [notification, reply] ∧
      notification.recipient = some (utf16 "sender@example.com") ∧
      reply.recipient = some (utf16 "jo@example.com")) ∧
    (contact sampleEnv calmWorld bodyUpper).sent.map (fun m => (m.sender, m.recipient)) =
      [(some (utf16 "sender@example.com"), some (utf16 "work@example.com")),
       (some (utf16 "sender@example.com"), some (utf16 "jo@example.com"))] ∧
    (contact envNoWork calmWorld bodyJo).sent.map (fun m => (m.sender, m.recipient)) =
      [(some (utf16 "sender@example.com"), some (utf16 "sender@example.com")),
       (some (utf16 "sender@example.com"), some (utf16 "jo@example.com"))] := by
  obtain ⟨n, r, hs, hw, _, _, hr, _, _, _⟩ :=
    contact_sends_two sampleEnv calmWorld bodyUpper
      ⟨by decide, by rfl, by decide, by decide, by decide⟩
  obtain ⟨n2, r2, hs2, _, hu2, _, hr2, _, _, _⟩ :=
    contact_sends_two envNoWork calmWorld bodyJo
      ⟨by decide, by rfl, by decide, by decide, by decide⟩
  exact ⟨⟨n, r, hs, hw _ rfl (by decide), by rw [hr]; decide⟩,
    ⟨n2, r2, hs2, by rw [hu2 (Or.inl rfl)]; rfl, by rw [hr2]; decide⟩, by decide, by decide⟩

end ContactServer
